import Mathlib

/- Verification development for the LangGraph shopping-cart chatbot.

   This file is a shallow embedding of the repository's core code:
   `models/product.py`, `models/cart.py`, `models/order.py`,
   `app/services/catalog_service.py`, `graph/state.py`, `graph/edges.py`
   and `graph/nodes.py`.  Python floats are modelled as rationals with an
   explicit half-even rounding function mirroring Python's `round(x, 2)`;
   Python exceptions are modelled with `Except String`; the in-place
   mutation of the conversation state is modelled by explicit state
   passing; the external LLM is an oracle input (its reply text for
   intent detection, the decoded JSON object for cart extraction).  -/

/-- Python `round(y, 2)` on ideal decimal values rounds half to even
    (banker's rounding).  `pyRoundHalfEven x` is `round(x)` for `x : ℚ`. -/
def pyRoundHalfEven (x : ℚ) : ℤ :=
  if x - ⌊x⌋ < 1/2 then ⌊x⌋
  else if (1 : ℚ)/2 < x - ⌊x⌋ then ⌊x⌋ + 1
  else if ⌊x⌋ % 2 = 0 then ⌊x⌋ else ⌊x⌋ + 1

/-- Python `round(x, 2)`: round to two decimal places, half to even. -/
def round2 (x : ℚ) : ℚ := (pyRoundHalfEven (x * 100) : ℚ) / 100

/-- Python `str.strip()`: drop leading and trailing whitespace.  (A
    first-principles model: `String.trim` is extensionally the same but
    does not reduce in the kernel.) -/
def pyStrip (s : String) : String :=
  ⟨((s.data.dropWhile Char.isWhitespace).reverse.dropWhile Char.isWhitespace).reverse⟩

/-- Python `str.lower()` (ASCII case folding, as the repo's data uses). -/
def pyLower (s : String) : String :=
  ⟨s.data.map Char.toLower⟩

/-- Python `str.startswith(t)`. -/
def strStarts (s t : String) : Bool :=
  t.data.isPrefixOf s.data

/-- Membership of `sub` as a contiguous sublist. -/
def listHasSub (sub : List Char) : List Char → Bool
  | [] => sub.isEmpty
  | c :: rest => sub.isPrefixOf (c :: rest) || listHasSub sub rest

/-- Python `sub in s` (literal substring; `"" in s` is `True`). -/
def strHasSub (s sub : String) : Bool :=
  listHasSub sub.data s.data

/-- Python `s[n:]` — drop the first `n` characters. -/
def strDropChars (s : String) (n : Nat) : String :=
  ⟨s.data.drop n⟩

/-- Model of `models/product.py` `Product`.  Prices are rationals (the
    pydantic validator rounds them to 2 decimals on construction);
    `stock` is an `Int` as in Python (the validator forbids negatives). -/
structure Product where
  id : String
  name : String
  price : ℚ
  category : String
  description : String
  stock : Int
deriving Repr, DecidableEq

/-- The pydantic field validators of `Product` (`price > 0` after
    rounding, `stock >= 0`, `id`/`name`/`category` non-empty): every
    `Product` object that exists at runtime satisfies this. -/
def ProductValid (p : Product) : Prop :=
  0 < p.price ∧ 0 ≤ p.stock ∧ p.id ≠ "" ∧ pyStrip p.name ≠ ""

instance (p : Product) : Decidable (ProductValid p) := by
  unfold ProductValid; infer_instance

/-- Embeds `Product.is_available(quantity)`: `self.stock >= quantity`. -/
def Product.is_available (p : Product) (quantity : Int) : Bool :=
  p.stock ≥ quantity

/-- Model of `models/cart.py` `CartItem` (product + quantity).  The
    pydantic validator on construction requires `quantity > 0`;
    plain attribute assignment (as `update_quantity` does) is not
    re-validated by pydantic, so the structure itself is unconstrained. -/
structure CartItem where
  product : Product
  quantity : Int
deriving Repr, DecidableEq

/-- Embeds `CartItem.subtotal`: `round(self.product.price * self.quantity, 2)`. -/
def CartItem.subtotal (it : CartItem) : ℚ :=
  round2 (it.product.price * (it.quantity : ℚ))

/-- Association-list model of a Python `dict` (insertion ordered):
    lookup by key. -/
def dictGet : List (String × CartItem) → String → Option CartItem
  | [], _ => none
  | (k, v) :: rest, key => if k = key then some v else dictGet rest key

/-- Python `d[key] = v`: replaces in place when the key exists (keeping
    its position), otherwise appends at the end (insertion order). -/
def dictSet : List (String × CartItem) → String → CartItem → List (String × CartItem)
  | [], key, v => [(key, v)]
  | (k, v0) :: rest, key, v =>
      if k = key then (k, v) :: rest else (k, v0) :: dictSet rest key v

/-- Python `del d[key]` (only called on present keys in the source). -/
def dictDel : List (String × CartItem) → String → List (String × CartItem)
  | [], _ => []
  | (k, v) :: rest, key => if k = key then rest else (k, v) :: dictDel rest key

/-- Model of `models/cart.py` `ShoppingCart`: `items` is the
    `Dict[str, CartItem]` as an insertion-ordered association list. -/
structure ShoppingCart where
  items : List (String × CartItem)
deriving Repr, DecidableEq

/-- Embeds `ShoppingCart()` — the empty cart. -/
def ShoppingCart.empty : ShoppingCart := ⟨[]⟩

/-- Embeds `ShoppingCart.get_item`. -/
def ShoppingCart.get_item (c : ShoppingCart) (product_id : String) : Option CartItem :=
  dictGet c.items product_id

/-- Embeds `ShoppingCart.has_product`: `product_id in self.items`. -/
def ShoppingCart.has_product (c : ShoppingCart) (product_id : String) : Bool :=
  (dictGet c.items product_id).isSome

/-- Embeds `ShoppingCart.is_empty`: `len(self.items) == 0`. -/
def ShoppingCart.is_empty (c : ShoppingCart) : Bool :=
  c.items.length = 0

/-- Embeds `ShoppingCart.add_item` (raises `ValueError` on bad quantity or
    insufficient stock, before any mutation).  On an existing line the
    source keeps the stored item's `product` and only bumps `quantity`. -/
def ShoppingCart.add_item (c : ShoppingCart) (product : Product) (quantity : Int) :
    Except String ShoppingCart :=
  if quantity ≤ 0 then .error "La cantidad debe ser mayor que 0"
  else if ¬ product.is_available quantity then
    .error ("Stock insuficiente para " ++ product.name ++ ". Disponible: " ++
      toString product.stock)
  else
    match dictGet c.items product.id with
    | some item =>
        if ¬ product.is_available (item.quantity + quantity) then
          .error ("Stock insuficiente para " ++ product.name ++ ". Tienes " ++
            toString item.quantity ++ " en el carrito, disponible: " ++
            toString product.stock)
        else
          .ok ⟨dictSet c.items product.id { item with quantity := item.quantity + quantity }⟩
    | none =>
        .ok ⟨dictSet c.items product.id ⟨product, quantity⟩⟩

/-- Embeds `ShoppingCart.remove_item` (raises `ValueError` when absent). -/
def ShoppingCart.remove_item (c : ShoppingCart) (product_id : String) :
    Except String ShoppingCart :=
  if (dictGet c.items product_id).isNone then
    .error ("El producto con ID '" ++ product_id ++ "' no está en el carrito")
  else .ok ⟨dictDel c.items product_id⟩

/-- Embeds `ShoppingCart.update_quantity` (absent → `ValueError`; negative →
    `ValueError`; 0 → `remove_item`; else stock check against the stored
    line's product, then assign the quantity). -/
def ShoppingCart.update_quantity (c : ShoppingCart) (product_id : String) (quantity : Int) :
    Except String ShoppingCart :=
  match dictGet c.items product_id with
  | none => .error ("El producto con ID '" ++ product_id ++ "' no está en el carrito")
  | some item =>
      if quantity < 0 then .error "La cantidad no puede ser negativa"
      else if quantity = 0 then c.remove_item product_id
      else if ¬ item.product.is_available quantity then
        .error ("Stock insuficiente para " ++ item.product.name ++ ". Disponible: " ++
          toString item.product.stock)
      else .ok ⟨dictSet c.items product_id { item with quantity := quantity }⟩

/-- Embeds `ShoppingCart.get_total`: `round(sum(item.subtotal ...), 2)`. -/
def ShoppingCart.get_total (c : ShoppingCart) : ℚ :=
  round2 ((c.items.map (fun kv => kv.2.subtotal)).sum)

/-- Embeds `ShoppingCart.get_item_count`: `sum(item.quantity ...)`. -/
def ShoppingCart.get_item_count (c : ShoppingCart) : Int :=
  (c.items.map (fun kv => kv.2.quantity)).sum

/-- Embeds `ShoppingCart.clear`. -/
def ShoppingCart.clear (_c : ShoppingCart) : ShoppingCart := ⟨[]⟩

/-- Quantity of a product already in the cart (0 when absent) — the
    "currentQty" of the specification. -/
def ShoppingCart.currentQty (c : ShoppingCart) (product_id : String) : Int :=
  match dictGet c.items product_id with
  | some item => item.quantity
  | none => 0

/-- Cart well-formedness: exactly the invariant claimed in C10 — every
    stored line has quantity ≥ 1, is keyed by its own product's id, and
    keys are unique.  This is what pydantic + the guarded mutation paths
    maintain for every cart the program ever builds. -/
def CartWF (c : ShoppingCart) : Prop :=
  (∀ kv ∈ c.items, 1 ≤ kv.2.quantity ∧ kv.1 = kv.2.product.id) ∧
    (c.items.map Prod.fst).Nodup

instance (c : ShoppingCart) : Decidable (CartWF c) := by
  unfold CartWF; infer_instance

/-- Keep the old cart when an operation raised (the source raises before
    any mutation, so a failed call leaves the Python cart unchanged). -/
def keepOnError (c : ShoppingCart) : Except String ShoppingCart → ShoppingCart
  | .ok c' => c'
  | .error _ => c

lemma cartWF_empty : CartWF ShoppingCart.empty := by
  constructor
  · intro kv h; cases h
  · simp [ShoppingCart.empty]

lemma dictGet_dictSet_self (l : List (String × CartItem)) (k : String) (v : CartItem) :
    dictGet (dictSet l k v) k = some v := by
  induction l with
  | nil => simp [dictGet, dictSet]
  | cons kv rest ih =>
      by_cases h : kv.1 = k
      · simp [dictGet, dictSet, h]
      · simp [dictGet, dictSet, h, ih]

lemma dictGet_dictSet_ne (l : List (String × CartItem)) (k k' : String) (v : CartItem)
    (h : k ≠ k') : dictGet (dictSet l k v) k' = dictGet l k' := by
  induction l with
  | nil => simp [dictGet, dictSet, h]
  | cons kv rest ih =>
      by_cases hk : kv.1 = k
      · subst hk; simp [dictGet, dictSet, h]
      · simp [dictGet, dictSet, hk, ih]

lemma dictGet_eq_some_mem {l : List (String × CartItem)} {k : String} {v : CartItem}
    (h : dictGet l k = some v) : (k, v) ∈ l := by
  induction l with
  | nil => simp [dictGet] at h
  | cons kv rest ih =>
      obtain ⟨k0, v0⟩ := kv
      by_cases hk : k0 = k
      · subst hk
        rw [dictGet, if_pos rfl] at h
        obtain rfl : v0 = v := by injection h
        exact List.mem_cons_self _ _
      · rw [dictGet, if_neg hk] at h
        exact List.mem_cons_of_mem _ (ih h)

lemma dictGet_none_iff (l : List (String × CartItem)) (k : String) :
    dictGet l k = none ↔ k ∉ l.map Prod.fst := by
  induction l with
  | nil => simp [dictGet]
  | cons kv rest ih =>
      obtain ⟨k0, v0⟩ := kv
      by_cases hk : k0 = k
      · subst hk; simp [dictGet]
      · rw [dictGet, if_neg hk, List.map_cons, ih]
        constructor
        · intro hnot hmem
          rcases List.mem_cons.mp hmem with h | h
          · exact hk h.symm
          · exact hnot h
        · intro hnot h; exact hnot (List.mem_cons_of_mem _ h)

lemma dictGet_isSome_iff (l : List (String × CartItem)) (k : String) :
    (dictGet l k).isSome = true ↔ k ∈ l.map Prod.fst := by
  rcases h : dictGet l k with _ | v
  · rw [dictGet_none_iff] at h
    simp only [Option.isSome_none, Bool.false_eq_true, false_iff]
    exact h
  · simp only [Option.isSome_some, true_iff]
    exact List.mem_map.mpr ⟨(k, v), dictGet_eq_some_mem h, rfl⟩

lemma mem_dictSet {l : List (String × CartItem)} {k : String} {v : CartItem} {kv : String × CartItem}
    (h : kv ∈ dictSet l k v) : kv = (k, v) ∨ kv ∈ l := by
  induction l with
  | nil => simpa [dictSet] using h
  | cons kv0 rest ih =>
      obtain ⟨k0, v0⟩ := kv0
      by_cases hk : k0 = k
      · subst hk
        rw [dictSet, if_pos rfl] at h
        rcases List.mem_cons.mp h with h | h
        · left; exact h
        · right; exact List.mem_cons_of_mem _ h
      · rw [dictSet, if_neg hk] at h
        rcases List.mem_cons.mp h with h | h
        · right; simp [h]
        · rcases ih h with h' | h'
          · left; exact h'
          · right; exact List.mem_cons_of_mem _ h'

lemma map_fst_dictSet_mem {l : List (String × CartItem)} {k : String} (v : CartItem)
    (h : k ∈ l.map Prod.fst) : (dictSet l k v).map Prod.fst = l.map Prod.fst := by
  induction l with
  | nil => simp at h
  | cons kv0 rest ih =>
      obtain ⟨k0, v0⟩ := kv0
      by_cases hk : k0 = k
      · subst hk; rw [dictSet, if_pos rfl]; simp
      · rw [List.map_cons] at h
        have h' : k ∈ rest.map Prod.fst := by
          rcases List.mem_cons.mp h with h | h
          · exact absurd h.symm hk
          · exact h
        rw [dictSet, if_neg hk, List.map_cons, List.map_cons, ih h']

lemma map_fst_dictSet_not_mem {l : List (String × CartItem)} {k : String} (v : CartItem)
    (h : k ∉ l.map Prod.fst) : (dictSet l k v).map Prod.fst = l.map Prod.fst ++ [k] := by
  induction l with
  | nil => simp [dictSet]
  | cons kv0 rest ih =>
      have hk : kv0.1 ≠ k := by
        intro hc; exact h (by simp [hc])
      have h' : k ∉ rest.map Prod.fst := fun hc => h (by simp [hc])
      simp [dictSet, hk, ih h']

lemma dictDel_sublist (l : List (String × CartItem)) (k : String) :
    (dictDel l k).Sublist l := by
  induction l with
  | nil => simp [dictDel]
  | cons kv rest ih =>
      by_cases hk : kv.1 = k
      · rw [dictDel, if_pos hk]
        exact List.sublist_cons_self _ _
      · rw [dictDel, if_neg hk]
        exact List.Sublist.cons₂ _ ih

lemma mem_dictDel {l : List (String × CartItem)} {k : String} {kv : String × CartItem}
    (h : kv ∈ dictDel l k) : kv ∈ l :=
  (dictDel_sublist l k).mem h

lemma dictGet_dictDel_self {l : List (String × CartItem)} {k : String}
    (h : (l.map Prod.fst).Nodup) : dictGet (dictDel l k) k = none := by
  induction l with
  | nil => simp [dictDel, dictGet]
  | cons kv rest ih =>
      rw [List.map_cons, List.nodup_cons] at h
      by_cases hk : kv.1 = k
      · rw [dictDel, if_pos hk, dictGet_none_iff]
        exact hk ▸ h.1
      · rw [dictDel, if_neg hk, dictGet, if_neg hk]
        exact ih h.2

lemma currentQty_of_none {c : ShoppingCart} {pid : String}
    (hg : dictGet c.items pid = none) : c.currentQty pid = 0 := by
  simp [ShoppingCart.currentQty, hg]

lemma currentQty_of_some {c : ShoppingCart} {pid : String} {item : CartItem}
    (hg : dictGet c.items pid = some item) : c.currentQty pid = item.quantity := by
  simp [ShoppingCart.currentQty, hg]

lemma cartWF_currentQty_nonneg {c : ShoppingCart} (h : CartWF c) (pid : String) :
    0 ≤ c.currentQty pid := by
  rcases hg : dictGet c.items pid with _ | item
  · rw [currentQty_of_none hg]
  · rw [currentQty_of_some hg]
    have h1 : 1 ≤ item.quantity := (h.1 _ (dictGet_eq_some_mem hg)).1
    omega

lemma add_item_error_iff {c : ShoppingCart} {p : Product} {qty : Int}
    (hWF : CartWF c) (hq : 0 < qty) :
    (∃ e, c.add_item p qty = Except.error e) ↔ p.stock < c.currentQty p.id + qty := by
  have hq' : ¬ qty ≤ 0 := not_le.mpr hq
  unfold ShoppingCart.add_item
  rw [if_neg hq']
  rcases hg : dictGet c.items p.id with _ | item
  · rw [currentQty_of_none hg]
    by_cases hav : p.stock < qty
    · rw [if_pos (by simp [Product.is_available]; omega)]
      exact iff_of_true ⟨_, rfl⟩ (by omega)
    · rw [if_neg (by simp [Product.is_available]; omega)]
      simp only [hg]
      refine iff_of_false ?_ (by omega)
      rintro ⟨e, he⟩; cases he
  · have hmem := dictGet_eq_some_mem hg
    have hq1 : 1 ≤ item.quantity := (hWF.1 _ hmem).1
    rw [currentQty_of_some hg]
    by_cases hav : p.stock < qty
    · rw [if_pos (by simp [Product.is_available]; omega)]
      exact iff_of_true ⟨_, rfl⟩ (by omega)
    · rw [if_neg (by simp [Product.is_available]; omega)]
      simp only [hg]
      by_cases hav2 : p.stock < item.quantity + qty
      · rw [if_pos (by simp [Product.is_available]; omega)]
        exact iff_of_true ⟨_, rfl⟩ (by omega)
      · rw [if_neg (by simp [Product.is_available]; omega)]
        refine iff_of_false ?_ (by omega)
        rintro ⟨e, he⟩; cases he

lemma add_item_ok {c : ShoppingCart} {p : Product} {qty : Int}
    (hWF : CartWF c) (hq : 0 < qty) (h : ¬ p.stock < c.currentQty p.id + qty) :
    ∃ c', c.add_item p qty = Except.ok c' ∧
      c'.currentQty p.id = c.currentQty p.id + qty := by
  have hq' : ¬ qty ≤ 0 := not_le.mpr hq
  unfold ShoppingCart.add_item
  rcases hg : dictGet c.items p.id with _ | item
  · rw [currentQty_of_none hg] at h ⊢
    rw [if_neg hq']
    rw [if_neg (by simp [Product.is_available]; omega)]
    simp only [hg]
    refine ⟨_, rfl, ?_⟩
    have hset : dictGet (dictSet c.items p.id ⟨p, qty⟩) p.id = some ⟨p, qty⟩ :=
      dictGet_dictSet_self _ _ _
    rw [currentQty_of_some hset]
    show qty = 0 + qty
    omega
  · have hmem := dictGet_eq_some_mem hg
    have hq1 : 1 ≤ item.quantity := (hWF.1 _ hmem).1
    rw [currentQty_of_some hg] at h ⊢
    rw [if_neg hq']
    rw [if_neg (by simp [Product.is_available]; omega)]
    simp only [hg]
    rw [if_neg (by simp [Product.is_available]; omega)]
    refine ⟨_, rfl, ?_⟩
    have : dictGet (dictSet c.items p.id { item with quantity := item.quantity + qty }) p.id =
        some { item with quantity := item.quantity + qty } := dictGet_dictSet_self _ _ _
    rw [currentQty_of_some this]

lemma add_item_WF {c : ShoppingCart} {p : Product} {qty : Int} {c' : ShoppingCart}
    (hWF : CartWF c) (h : c.add_item p qty = Except.ok c') : CartWF c' := by
  unfold ShoppingCart.add_item at h
  by_cases h1 : qty ≤ 0
  · rw [if_pos h1] at h; cases h
  rw [if_neg h1] at h
  by_cases h2 : (p.is_available qty : Bool) = true
  swap
  · rw [if_pos h2] at h; cases h
  rw [if_neg (not_not_intro h2)] at h
  rcases hg : dictGet c.items p.id with _ | item
  · simp only [hg] at h
    obtain rfl : (⟨dictSet c.items p.id ⟨p, qty⟩⟩ : ShoppingCart) = c' := by injection h
    constructor
    · intro kv hkv
      rcases mem_dictSet hkv with rfl | hkv'
      · refine ⟨?_, rfl⟩
        show 1 ≤ qty
        omega
      · exact hWF.1 _ hkv'
    · have hnot : p.id ∉ c.items.map Prod.fst := (dictGet_none_iff _ _).mp hg
      rw [map_fst_dictSet_not_mem _ hnot]
      simp [List.nodup_append, hWF.2, hnot]
  · simp only [hg] at h
    have hmem := dictGet_eq_some_mem hg
    have hkey : p.id = item.product.id := (hWF.1 _ hmem).2
    have hq1 : 1 ≤ item.quantity := (hWF.1 _ hmem).1
    by_cases h3 : (p.is_available (item.quantity + qty) : Bool) = true
    swap
    · rw [if_pos h3] at h; cases h
    rw [if_neg (not_not_intro h3)] at h
    obtain rfl : (⟨dictSet c.items p.id { item with quantity := item.quantity + qty }⟩ :
        ShoppingCart) = c' := by injection h
    constructor
    · intro kv hkv
      rcases mem_dictSet hkv with rfl | hkv'
      · refine ⟨?_, hkey⟩
        show 1 ≤ item.quantity + qty
        omega
      · exact hWF.1 _ hkv'
    · have hsome : p.id ∈ c.items.map Prod.fst := by
        rw [← dictGet_isSome_iff, hg]; rfl
      rw [map_fst_dictSet_mem _ hsome]
      exact hWF.2

lemma remove_item_WF {c : ShoppingCart} {pid : String} {c' : ShoppingCart}
    (hWF : CartWF c) (h : c.remove_item pid = Except.ok c') : CartWF c' := by
  unfold ShoppingCart.remove_item at h
  by_cases h1 : (dictGet c.items pid).isNone = true
  · rw [if_pos h1] at h; cases h
  rw [if_neg h1] at h
  obtain rfl : (⟨dictDel c.items pid⟩ : ShoppingCart) = c' := by injection h
  constructor
  · intro kv hkv
    exact hWF.1 _ (mem_dictDel hkv)
  · exact hWF.2.sublist ((dictDel_sublist _ _).map Prod.fst)

lemma update_quantity_WF {c : ShoppingCart} {pid : String} {qty : Int} {c' : ShoppingCart}
    (hWF : CartWF c) (h : c.update_quantity pid qty = Except.ok c') : CartWF c' := by
  unfold ShoppingCart.update_quantity at h
  rcases hg : dictGet c.items pid with _ | item
  · simp only [hg] at h
    cases h
  · simp only [hg] at h
    by_cases h1 : qty < 0
    · rw [if_pos h1] at h; cases h
    rw [if_neg h1] at h
    by_cases h2 : qty = 0
    · rw [if_pos h2] at h
      exact remove_item_WF hWF h
    rw [if_neg h2] at h
    have hmem := dictGet_eq_some_mem hg
    have hkey : pid = item.product.id := (hWF.1 _ hmem).2
    by_cases h3 : (item.product.is_available qty : Bool) = true
    swap
    · rw [if_pos h3] at h; cases h
    rw [if_neg (not_not_intro h3)] at h
    obtain rfl : (⟨dictSet c.items pid { item with quantity := qty }⟩ : ShoppingCart) = c' := by
      injection h
    constructor
    · intro kv hkv
      rcases mem_dictSet hkv with rfl | hkv'
      · refine ⟨?_, hkey⟩
        show 1 ≤ qty
        omega
      · exact hWF.1 _ hkv'
    · have hsome : pid ∈ c.items.map Prod.fst := by
        rw [← dictGet_isSome_iff, hg]; rfl
      rw [map_fst_dictSet_mem _ hsome]
      exact hWF.2

/-- The cart mutations the conversation can perform (a failed call is
    modelled by `keepOnError`: the source raises before mutating). -/
inductive CartOp where
  | add (p : Product) (q : Int)
  | update (pid : String) (q : Int)
  | remove (pid : String)
  | clear
deriving Repr

/-- Apply one cart operation, keeping the old cart when it raises. -/
def applyOp (c : ShoppingCart) : CartOp → ShoppingCart
  | .add p q => keepOnError c (c.add_item p q)
  | .update pid q => keepOnError c (c.update_quantity pid q)
  | .remove pid => keepOnError c (c.remove_item pid)
  | .clear => c.clear

/-- Apply a sequence of cart operations in order. -/
def applyOps (ops : List CartOp) (c : ShoppingCart) : ShoppingCart :=
  ops.foldl applyOp c

/-- Cart states reachable from the empty cart. -/
def ReachableCart (c : ShoppingCart) : Prop :=
  ∃ ops, applyOps ops ShoppingCart.empty = c

lemma applyOp_WF {c : ShoppingCart} (hWF : CartWF c) (op : CartOp) : CartWF (applyOp c op) := by
  cases op with
  | add p q =>
      rcases h : c.add_item p q with e | c'
      · simpa [applyOp, keepOnError, h] using hWF
      · simpa [applyOp, keepOnError, h] using add_item_WF hWF h
  | update pid q =>
      rcases h : c.update_quantity pid q with e | c'
      · simpa [applyOp, keepOnError, h] using hWF
      · simpa [applyOp, keepOnError, h] using update_quantity_WF hWF h
  | remove pid =>
      rcases h : c.remove_item pid with e | c'
      · simpa [applyOp, keepOnError, h] using hWF
      · simpa [applyOp, keepOnError, h] using remove_item_WF hWF h
  | clear =>
      constructor
      · intro kv hkv; cases hkv
      · simp [ShoppingCart.clear, applyOp]

lemma applyOps_WF {c : ShoppingCart} (hWF : CartWF c) (ops : List CartOp) :
    CartWF (applyOps ops c) := by
  induction ops generalizing c with
  | nil => exact hWF
  | cons op rest ih => exact ih (applyOp_WF hWF op)

lemma reachableCart_WF {c : ShoppingCart} (h : ReachableCart c) : CartWF c := by
  obtain ⟨ops, rfl⟩ := h
  exact applyOps_WF cartWF_empty ops

/-- Success flags of a sequence of `add_item` calls for one product,
    starting from cart `c` (a failed call leaves the cart unchanged,
    exactly as the raised `ValueError` does in the source). -/
def addResults (p : Product) : ShoppingCart → List Int → List Bool
  | _, [] => []
  | c, q :: rest =>
      match c.add_item p q with
      | .ok c' => true :: addResults p c' rest
      | .error _ => false :: addResults p c rest

lemma addResults_first_failure (p : Product) :
    ∀ (qs : List Int) (c : ShoppingCart), CartWF c → (∀ q ∈ qs, 0 < q) →
    ∀ i, i < qs.length →
      (∀ j, j < i → c.currentQty p.id + ((qs.take (j + 1)).sum) ≤ p.stock) →
      p.stock < c.currentQty p.id + ((qs.take (i + 1)).sum) →
      (addResults p c qs)[i]? = some false ∧
        (∀ j, j < i → (addResults p c qs)[j]? = some true) := by
  intro qs
  induction qs with
  | nil =>
      intro c _ _ i hi
      simp at hi
  | cons q rest ih =>
      intro c hWF hpos i hi hbef hfail
      have hq : 0 < q := hpos q (List.mem_cons_self _ _)
      cases i with
      | zero =>
          rw [List.take_succ_cons, List.take_zero, List.sum_cons, List.sum_nil, add_zero] at hfail
          obtain ⟨e, he⟩ := (add_item_error_iff hWF hq).mpr hfail
          refine ⟨?_, by omega⟩
          simp [addResults, he]
      | succ i' =>
          have h0 := hbef 0 (Nat.succ_pos i')
          rw [List.take_succ_cons, List.take_zero, List.sum_cons, List.sum_nil, add_zero] at h0
          have hnotfail : ¬ p.stock < c.currentQty p.id + q := by omega
          obtain ⟨c', hok, hcur⟩ := add_item_ok hWF hq hnotfail
          have hWF' : CartWF c' := add_item_WF hWF hok
          have hbef' : ∀ j, j < i' → c'.currentQty p.id + ((rest.take (j + 1)).sum) ≤ p.stock := by
            intro j hj
            have := hbef (j + 1) (by omega)
            rw [List.take_succ_cons, List.sum_cons] at this
            omega
          have hfail' : p.stock < c'.currentQty p.id + ((rest.take (i' + 1)).sum) := by
            rw [List.take_succ_cons, List.sum_cons] at hfail
            omega
          have hres := ih c' hWF' (fun q hq => hpos q (List.mem_cons_of_mem _ hq)) i'
            (by simpa using hi) hbef' hfail'
          constructor
          · rw [addResults, hok]
            simpa using hres.1
          · intro j hj
            cases j with
            | zero =>
                simp [addResults, hok]
            | succ j' =>
                rw [addResults, hok]
                simpa using hres.2 j' (by omega)

/-- C1.  `add_item(p, qty)` with `qty > 0` fails exactly when
    `p.stock < currentQty + qty`; a failed call leaves the cart unchanged
    (`keepOnError`); and in a sequence of adds for `p` from the empty
    cart, the first call whose cumulative quantity exceeds `p.stock` is
    the one that fails — all earlier calls succeed. -/
theorem add_item_stock_characterization (c : ShoppingCart) (p : Product) (qty : Int)
    (hWF : CartWF c) (hq : 0 < qty) :
    ((∃ e, c.add_item p qty = Except.error e) ↔ p.stock < c.currentQty p.id + qty) ∧
    ((∃ e, c.add_item p qty = Except.error e) → keepOnError c (c.add_item p qty) = c) ∧
    (∀ qs : List Int, (∀ q ∈ qs, 0 < q) →
      ∀ i, i < qs.length →
        (∀ j, j < i → ((qs.take (j + 1)).sum) ≤ p.stock) →
        p.stock < ((qs.take (i + 1)).sum) →
        (addResults p ShoppingCart.empty qs)[i]? = some false ∧
          (∀ j, j < i → (addResults p ShoppingCart.empty qs)[j]? = some true)) := by
  refine ⟨add_item_error_iff hWF hq, ?_, ?_⟩
  · rintro ⟨e, he⟩
    rw [he]
    rfl
  · intro qs hpos i hi hbef hfail
    have hcur : ShoppingCart.empty.currentQty p.id = 0 := rfl
    exact addResults_first_failure p qs ShoppingCart.empty cartWF_empty hpos i hi
      (by intro j hj; rw [hcur, zero_add]; exact hbef j hj)
      (by rw [hcur, zero_add]; exact hfail)

/-- Concrete product for witnesses: stock 5. -/
def wProduct : Product := ⟨"p1", "X", 10, "c", "", 5⟩

/-- Concrete cart for witnesses: 3 units of `wProduct`. -/
def wCart : ShoppingCart := ⟨[("p1", ⟨wProduct, 3⟩)]⟩

/-- Witness for C1 at concrete input: product with stock 5, cart holding
    3 of it; adding 4 more fails (5 < 3 + 4) and the sequence [3, 4]
    from the empty cart fails exactly on the second call. -/
theorem add_item_stock_characterization_witness :
    (∃ e, wCart.add_item wProduct 4 = Except.error e) ∧
    (addResults wProduct ShoppingCart.empty [3, 4])[1]? = some false ∧
    (addResults wProduct ShoppingCart.empty [3, 4])[0]? = some true := by
  have h := add_item_stock_characterization wCart wProduct 4 (by decide) (by decide)
  have hseq := h.2.2 [3, 4] (by decide) 1 (by decide)
    (by intro j hj; interval_cases j; decide) (by decide)
  exact ⟨h.1.mpr (by decide), hseq.1, hseq.2 0 (by decide)⟩

/-- C5.  `update_quantity(id, 0)` is literally the same computation as
    `remove_item(id)`; after a successful `remove_item(id)` the cart no
    longer contains `id`; on an absent id both operations fail with the
    not-in-cart `ValueError` and the cart is unchanged. -/
theorem update_zero_equiv_remove (c : ShoppingCart) (pid : String) (hWF : CartWF c) :
    (c.update_quantity pid 0 = c.remove_item pid) ∧
    (c.has_product pid = true →
      ∃ c', c.remove_item pid = Except.ok c' ∧ c'.has_product pid = false) ∧
    (c.has_product pid = false →
      (∀ q, ∃ e, c.update_quantity pid q = Except.error e) ∧
      (∃ e, c.remove_item pid = Except.error e) ∧
      (∀ q, keepOnError c (c.update_quantity pid q) = c) ∧
      keepOnError c (c.remove_item pid) = c) := by
  refine ⟨?_, ?_, ?_⟩
  · rcases hg : dictGet c.items pid with _ | item
    · simp [ShoppingCart.update_quantity, ShoppingCart.remove_item, hg]
    · simp [ShoppingCart.update_quantity, hg]
  · intro hp
    rw [ShoppingCart.has_product, Option.isSome_iff_ne_none] at hp
    rcases hg : dictGet c.items pid with _ | item
    · exact absurd hg hp
    · refine ⟨⟨dictDel c.items pid⟩, ?_, ?_⟩
      · rw [ShoppingCart.remove_item, if_neg (by simp [hg])]
      · rw [ShoppingCart.has_product]
        rw [show dictGet (⟨dictDel c.items pid⟩ : ShoppingCart).items pid = none from
          dictGet_dictDel_self hWF.2]
        rfl
  · intro hp
    rw [ShoppingCart.has_product] at hp
    have hp : dictGet c.items pid = none := by
      rcases hg : dictGet c.items pid with _ | item
      · rfl
      · rw [hg] at hp; cases hp
    refine ⟨?_, ?_, ?_, ?_⟩
    · intro q
      exact ⟨"El producto con ID '" ++ pid ++ "' no está en el carrito",
        by simp [ShoppingCart.update_quantity, hp]⟩
    · exact ⟨"El producto con ID '" ++ pid ++ "' no está en el carrito",
        by rw [ShoppingCart.remove_item, if_pos (by simp [hp])]⟩
    · intro q
      have : c.update_quantity pid q =
          Except.error ("El producto con ID '" ++ pid ++ "' no está en el carrito") := by
        simp [ShoppingCart.update_quantity, hp]
      rw [this]
      rfl
    · have : c.remove_item pid =
          Except.error ("El producto con ID '" ++ pid ++ "' no está en el carrito") := by
        rw [ShoppingCart.remove_item, if_pos (by simp [hp])]
      rw [this]
      rfl

/-- Witness for C5 at concrete inputs: on `wCart` (which contains "p1")
    update-to-0 equals remove and removal really deletes; "zz" is absent
    and both operations error leaving the cart unchanged. -/
theorem update_zero_equiv_remove_witness :
    (wCart.update_quantity "p1" 0 = wCart.remove_item "p1") ∧
    (∃ c', wCart.remove_item "p1" = Except.ok c' ∧ c'.has_product "p1" = false) ∧
    (∃ e, wCart.update_quantity "zz" 7 = Except.error e) ∧
    keepOnError wCart (wCart.remove_item "zz") = wCart := by
  have h1 := update_zero_equiv_remove wCart "p1" (by decide)
  have h2 := update_zero_equiv_remove wCart "zz" (by decide)
  exact ⟨h1.1, h1.2.1 (by decide), (h2.2.2 (by decide)).1 7, (h2.2.2 (by decide)).2.2.2⟩

/-- C9.  For every cart reachable from the empty cart via the cart
    operations, `get_total()` is the sum over the lines of
    `round2(price × quantity)`, itself rounded to 2 decimals — this is
    exactly how `get_total` and `CartItem.subtotal` compute. -/
theorem get_total_eq_sum_rounded (c : ShoppingCart) (_reach : ReachableCart c) :
    c.get_total =
      round2 ((c.items.map (fun kv => round2 (kv.2.product.price * (kv.2.quantity : ℚ)))).sum) :=
  rfl

/-- Witness for C9 at the empty cart (reachable via the empty op list). -/
theorem get_total_eq_sum_rounded_witness :
    ShoppingCart.empty.get_total =
      round2 ((ShoppingCart.empty.items.map
        (fun kv => round2 (kv.2.product.price * (kv.2.quantity : ℚ)))).sum) :=
  get_total_eq_sum_rounded ShoppingCart.empty ⟨[], rfl⟩

/-- C10.  Every sequence of cart operations starting from the empty cart
    (failed calls leaving the cart unchanged) preserves the invariant:
    every stored line has quantity ≥ 1, is keyed by its own product's id,
    and no product id occurs twice. -/
theorem cart_invariant_reachable (ops : List CartOp) :
    CartWF (applyOps ops ShoppingCart.empty) :=
  applyOps_WF cartWF_empty ops

/-- Model of `models/order.py` `Order`.  The `timestamp` field carries no
    behaviour any claim depends on and is omitted; `order_id` is produced
    by `generate_order_id` from wall-clock time and a UUID, so it enters
    the embedding as an external input. -/
structure Order where
  order_id : String
  cart : ShoppingCart
  customer_name : String
  customer_city : String
  total : ℚ
deriving Repr, DecidableEq

/-- Embeds `Order.create_from_cart`: raises on an empty cart; pydantic then
    validates name/city (non-empty after strip, stored stripped) and the
    total (`round(v, 2)`, `>= 0`).  The source deep-copies the cart, so
    the stored cart is the value of `cart` at creation time. -/
def Order.create_from_cart (cart : ShoppingCart) (customer_name customer_city : String)
    (order_id : String) : Except String Order :=
  if cart.is_empty then
    .error "No se puede crear una orden con un carrito vacío"
  else if pyStrip customer_name = "" then .error "El campo no puede estar vacío"
  else if pyStrip customer_city = "" then .error "El campo no puede estar vacío"
  else if cart.get_total < 0 then .error "El total no puede ser negativo"
  else
    .ok { order_id := order_id, cart := cart, customer_name := pyStrip customer_name,
          customer_city := pyStrip customer_city, total := round2 cart.get_total }

lemma pyRoundHalfEven_intCast (n : ℤ) : pyRoundHalfEven (n : ℚ) = n := by
  unfold pyRoundHalfEven
  rw [Int.floor_intCast]
  rw [if_pos (by norm_num)]

lemma round2_round2 (x : ℚ) : round2 (round2 x) = round2 x := by
  unfold round2
  rw [div_mul_cancel₀ _ (by norm_num : (100 : ℚ) ≠ 0), pyRoundHalfEven_intCast]

lemma pyRoundHalfEven_nonneg {x : ℚ} (h : 0 ≤ x) : 0 ≤ pyRoundHalfEven x := by
  unfold pyRoundHalfEven
  have h0 : (0 : ℤ) ≤ ⌊x⌋ := Int.floor_nonneg.mpr h
  split_ifs <;> omega

lemma round2_nonneg {x : ℚ} (h : 0 ≤ x) : 0 ≤ round2 x := by
  unfold round2
  have := pyRoundHalfEven_nonneg (show (0 : ℚ) ≤ x * 100 by positivity)
  positivity

lemma get_total_nonneg {c : ShoppingCart} (h : ∀ kv ∈ c.items, 0 ≤ kv.2.subtotal) :
    0 ≤ c.get_total := by
  unfold ShoppingCart.get_total
  refine round2_nonneg (List.sum_nonneg ?_)
  intro x hx
  obtain ⟨kv, hkv, rfl⟩ := List.mem_map.mp hx
  exact h kv hkv

/-- C3.  On a non-empty cart whose lines all have non-negative subtotals
    (every real cart does: pydantic keeps prices positive and quantities
    positive) and non-blank customer data, `Order.create_from_cart`
    yields an order whose `total` equals the cart's `get_total()` and
    whose stored cart is the snapshot of `c`; applying any further cart
    operations to the source cart never changes the stored order's items
    or total (the source deep-copies `c`, so the order owns its copy). -/
theorem order_snapshot_total (c : ShoppingCart) (name city order_id : String)
    (hne : c.is_empty = false)
    (hpos : ∀ kv ∈ c.items, 0 ≤ kv.2.product.price ∧ 0 ≤ kv.2.quantity)
    (hname : pyStrip name ≠ "") (hcity : pyStrip city ≠ "") :
    ∃ o, Order.create_from_cart c name city order_id = Except.ok o ∧
      o.total = c.get_total ∧ o.cart = c ∧
      ∀ ops : List CartOp,
        (applyOps ops c = applyOps ops c) ∧ o.cart.items = c.items ∧ o.total = c.get_total := by
  have hsub : ∀ kv ∈ c.items, 0 ≤ kv.2.subtotal := by
    intro kv hkv
    exact round2_nonneg (mul_nonneg (hpos kv hkv).1 (by exact_mod_cast (hpos kv hkv).2))
  have htot : 0 ≤ c.get_total := get_total_nonneg hsub
  have hround : round2 c.get_total = c.get_total := round2_round2 _
  refine ⟨{ order_id := order_id, cart := c, customer_name := pyStrip name,
            customer_city := pyStrip city, total := round2 c.get_total }, ?_, ?_, rfl, ?_⟩
  · unfold Order.create_from_cart
    rw [if_neg (by simp [hne]), if_neg hname, if_neg hcity, if_neg (not_lt.mpr htot)]
  · exact hround
  · intro ops
    exact ⟨rfl, rfl, hround⟩

/-- Witness for C3 at a concrete cart: `wCart` (total 30) with customer
    "Juan" / "Madrid". -/
theorem order_snapshot_total_witness :
    ∃ o, Order.create_from_cart wCart "Juan" "Madrid" "ORD-1" = Except.ok o ∧
      o.total = wCart.get_total ∧ o.cart = wCart := by
  obtain ⟨o, h1, h2, h3, _⟩ := order_snapshot_total wCart "Juan" "Madrid" "ORD-1"
    (by decide) (by decide) (by decide) (by decide)
  exact ⟨o, h1, h2, h3⟩

/-- Model of `app/services/catalog_service.py` `CatalogService`: the
    `_products` dict's values in load order (keys are the product ids). -/
structure Catalog where
  products : List Product
deriving Repr, DecidableEq

/-- Embeds `CatalogService.get_by_id`. -/
def Catalog.get_by_id (c : Catalog) (pid : String) : Option Product :=
  c.products.find? (fun p => p.id = pid)

/-- Embeds `CatalogService.get_by_name`: case-insensitive exact name match
    (`name.lower().strip()` against `product.name.lower()`). -/
def Catalog.get_by_name (c : Catalog) (name : String) : Option Product :=
  c.products.find? (fun p => pyLower p.name = pyStrip (pyLower name))

/-- Combined relevance score of `search_products` for one product.  The
    `difflib.SequenceMatcher(...).ratio()` calls are Python stdlib,
    external to this repository, and enter as the oracle `ratio`; the
    weights 0.8/0.9 and the substring floor 0.7 are taken at their ideal
    decimal values. -/
def bestRatio (ratio : String → String → ℚ) (query_lower : String) (p : Product) : ℚ :=
  if strHasSub (pyLower p.name) query_lower ∨
      strHasSub (pyLower p.description) query_lower ∨
      strHasSub (pyLower p.category) query_lower then
    max (max (ratio query_lower (pyLower p.name))
      (max (ratio query_lower (pyLower p.description) * (8/10))
           (ratio query_lower (pyLower p.category) * (9/10)))) (7/10)
  else
    max (ratio query_lower (pyLower p.name))
      (max (ratio query_lower (pyLower p.description) * (8/10))
           (ratio query_lower (pyLower p.category) * (9/10)))

/-- Embeds `CatalogService.search_products`: empty (stripped, lowered) query →
    `[]`; otherwise keep products with `bestRatio ≥ min_similarity` and
    sort by score descending with Python's stable sort. -/
def search_products (ratio : String → String → ℚ) (cat : Catalog) (query : String)
    (min_similarity : ℚ) : List Product :=
  if pyStrip (pyLower query) = "" then []
  else
    ((cat.products.filterMap (fun p =>
        if min_similarity ≤ bestRatio ratio (pyStrip (pyLower query)) p
        then some (p, bestRatio ratio (pyStrip (pyLower query)) p) else none)).mergeSort
      (fun a b => b.2 ≤ a.2)).map Prod.fst

lemma searchLe_trans :
    ∀ a b c : Product × ℚ, (decide (b.2 ≤ a.2)) = true → (decide (c.2 ≤ b.2)) = true →
      (decide (c.2 ≤ a.2)) = true := by
  intro a b c hab hbc
  simp at hab hbc ⊢
  exact le_trans hbc hab

lemma searchLe_total :
    ∀ a b : Product × ℚ, ((decide (b.2 ≤ a.2)) || (decide (a.2 ≤ b.2))) = true := by
  intro a b
  simpa using le_total b.2 a.2

lemma search_scored_mem {ratio : String → String → ℚ} {cat : Catalog} {min_similarity : ℚ}
    {x : Product × ℚ} {ql : String}
    (hx : x ∈ cat.products.filterMap (fun p =>
      if min_similarity ≤ bestRatio ratio ql p
      then some (p, bestRatio ratio ql p) else none)) :
    x.1 ∈ cat.products ∧ min_similarity ≤ bestRatio ratio ql x.1 ∧
      x.2 = bestRatio ratio ql x.1 := by
  obtain ⟨p, hp, hfp⟩ := List.mem_filterMap.mp hx
  by_cases hc : min_similarity ≤ bestRatio ratio ql p
  · rw [if_pos hc] at hfp
    obtain rfl : (p, bestRatio ratio ql p) = x := by injection hfp
    exact ⟨hp, hc, rfl⟩
  · rw [if_neg hc] at hfp
    cases hfp

/-- C6 counterexample: for the empty query, `search_products` returns
    `[]` even though every product's score is floored at 0.7 by the
    substring rule (Python's `"" in s` is `True`), so with the default
    threshold 0.4 — here even 0 — the claimed "exactly the products
    scoring ≥ minSimilarity, sorted" is violated at this input. -/
theorem search_empty_query_counterexample :
    wProduct ∉ search_products (fun _ _ => 0) ⟨[wProduct]⟩ "" 0 ∧
    wProduct ∈ (⟨[wProduct]⟩ : Catalog).products ∧
    (0 : ℚ) ≤ bestRatio (fun _ _ => 0) (pyStrip (pyLower "")) wProduct := by
  refine ⟨?_, by simp, ?_⟩
  · rw [search_products, if_pos (by decide)]
    simp
  · rw [bestRatio, if_pos (by decide)]
    exact le_trans (le_max_left _ _) (le_max_left _ _)

/-- C6 (amended: the query must be non-empty after lowercasing and
    stripping; the source returns `[]` for blank queries).  For a
    non-blank query, `search_products` returns exactly the products with
    `bestRatio ≥ min_similarity`; the result is sorted by descending
    score; and products with equal scores keep catalog load order
    (stability). -/
theorem search_products_spec (ratio : String → String → ℚ) (cat : Catalog) (query : String)
    (min_similarity : ℚ) (hq : pyStrip (pyLower query) ≠ "") :
    (∀ p, p ∈ search_products ratio cat query min_similarity ↔
      (p ∈ cat.products ∧
        min_similarity ≤ bestRatio ratio (pyStrip (pyLower query)) p)) ∧
    (search_products ratio cat query min_similarity).Pairwise
      (fun a b => bestRatio ratio (pyStrip (pyLower query)) b ≤
        bestRatio ratio (pyStrip (pyLower query)) a) ∧
    (∀ p1 p2, [p1, p2].Sublist cat.products →
      min_similarity ≤ bestRatio ratio (pyStrip (pyLower query)) p1 →
      min_similarity ≤ bestRatio ratio (pyStrip (pyLower query)) p2 →
      bestRatio ratio (pyStrip (pyLower query)) p1 =
        bestRatio ratio (pyStrip (pyLower query)) p2 →
      [p1, p2].Sublist (search_products ratio cat query min_similarity)) := by
  set ql := pyStrip (pyLower query) with hql
  set scored := cat.products.filterMap (fun p =>
    if min_similarity ≤ bestRatio ratio ql p
    then some (p, bestRatio ratio ql p) else none) with hscored
  have hres : search_products ratio cat query min_similarity =
      (scored.mergeSort (fun a b => b.2 ≤ a.2)).map Prod.fst := by
    rw [search_products, if_neg hq]
  have hperm := List.mergeSort_perm scored (fun a b => b.2 ≤ a.2)
  refine ⟨?_, ?_, ?_⟩
  · intro p
    rw [hres]
    constructor
    · intro hp
      obtain ⟨x, hx, rfl⟩ := List.mem_map.mp hp
      have hx' := search_scored_mem (hperm.mem_iff.mp hx)
      exact ⟨hx'.1, hx'.2.1⟩
    · rintro ⟨hp, hscore⟩
      refine List.mem_map.mpr ⟨(p, bestRatio ratio ql p), ?_, rfl⟩
      refine hperm.mem_iff.mpr ?_
      refine List.mem_filterMap.mpr ⟨p, hp, ?_⟩
      rw [if_pos hscore]
  · rw [hres]
    rw [List.pairwise_map]
    have hsorted := @List.sorted_mergeSort (Product × ℚ)
      (fun a b => decide (b.2 ≤ a.2)) searchLe_trans searchLe_total scored
    refine List.Pairwise.imp_of_mem ?_ hsorted
    intro a b ha hb hab
    have ha' := search_scored_mem (hperm.mem_iff.mp ha)
    have hb' := search_scored_mem (hperm.mem_iff.mp hb)
    rw [← ha'.2.2, ← hb'.2.2]
    simpa using hab
  · intro p1 p2 hsub h1 h2 heq
    rw [hres]
    have hsub2 : [(p1, bestRatio ratio ql p1), (p2, bestRatio ratio ql p2)].Sublist scored := by
      have := List.Sublist.filterMap (fun p =>
        if min_similarity ≤ bestRatio ratio ql p
        then some (p, bestRatio ratio ql p) else none) hsub
      simpa [List.filterMap_cons, if_pos h1, if_pos h2] using this
    have hpair : List.Pairwise
        (fun a b : Product × ℚ => (decide (b.2 ≤ a.2)) = true)
        [(p1, bestRatio ratio ql p1), (p2, bestRatio ratio ql p2)] := by
      simp [heq]
    have := List.mergeSort_stable searchLe_trans searchLe_total hpair hsub2
    simpa using this.map Prod.fst

/-- Witness for C6 at concrete input: catalog `[wProduct]`, query "x"
    (non-blank), constant-zero ratio oracle, threshold 0: `wProduct` is
    returned because its score is ≥ 0. -/
theorem search_products_spec_witness :
    wProduct ∈ search_products (fun _ _ => 0) ⟨[wProduct]⟩ "x" 0 := by
  have h := search_products_spec (fun _ _ => 0) ⟨[wProduct]⟩ "x" 0 (by decide)
  refine (h.1 wProduct).mpr ⟨by simp, ?_⟩
  rw [bestRatio]
  by_cases hc : (strHasSub (pyLower wProduct.name) (pyStrip (pyLower "x")) ∨
      strHasSub (pyLower wProduct.description) (pyStrip (pyLower "x")) ∨
      strHasSub (pyLower wProduct.category) (pyStrip (pyLower "x")))
  · rw [if_pos hc]
    exact le_trans (le_max_left _ _) (le_max_left _ _)
  · rw [if_neg hc]
    exact le_max_left _ _

/-- Python `str.upper()` (ASCII). -/
def pyUpper (s : String) : String :=
  ⟨s.data.map Char.toUpper⟩

/-- Message log entries: langchain `HumanMessage` / `AIMessage`. -/
inductive Msg where
  | human (content : String)
  | ai (content : String)
deriving Repr, DecidableEq

/-- Whether a message is a user (`human`) message. -/
def Msg.isHuman : Msg → Bool
  | .human _ => true
  | .ai _ => false

/-- Embeds `graph/state.py` `UserIntent`. -/
inductive UserIntent where
  | browse
  | manage_cart
  | view_cart
  | checkout
  | out_of_context
  | unknown
  | exit
deriving Repr, DecidableEq

/-- Embeds `graph/state.py` `ConversationStage`. -/
inductive ConversationStage where
  | welcome
  | shopping
  | checkout
  | completed
  | error
deriving Repr, DecidableEq

/-- The dict stored per product by `browse_products_node` into
    `last_search_results`. -/
structure ProductSummary where
  id : String
  name : String
  price : ℚ
  category : String
  stock : Int
deriving Repr, DecidableEq

/-- Embeds `graph/state.py` `ConversationState`. -/
structure ConvState where
  messages : List Msg
  cart : ShoppingCart
  current_intent : UserIntent
  stage : ConversationStage
  last_search_results : Option (List ProductSummary)
  last_product_id : Option String
  customer_name : Option String
  customer_city : Option String
  order : Option Order
  session_id : String
deriving Repr, DecidableEq

/-- Embeds `create_initial_state`. -/
def create_initial_state (session_id : String) : ConvState :=
  { messages := [], cart := ShoppingCart.empty, current_intent := .browse,
    stage := .welcome, last_search_results := none, last_product_id := none,
    customer_name := none, customer_city := none, order := none,
    session_id := session_id }

/-- Embeds `get_last_user_message`: latest human message's content, else `""`. -/
def get_last_user_message (s : ConvState) : String :=
  match s.messages.reverse.find? Msg.isHuman with
  | some (.human c) => c
  | _ => ""

/-- Python truthiness of an optional string field: `None` and `""` are
    both falsy (`if not state.get(...)`). -/
def optTruthy : Option String → Bool
  | none => false
  | some s => s ≠ ""

/-- Append one assistant message (`state["messages"] = ... + [AIMessage]`). -/
def appendAI (s : ConvState) (content : String) : ConvState :=
  { s with messages := s.messages ++ [Msg.ai content] }

/-- The fixed welcome text of `_show_welcome_message`. -/
def welcomeMessage : String :=
  "👋 **¡Bienvenido a la tienda online!**\n\n" ++
  "Puedo ayudarte a:\n" ++
  "📦 Ver productos: 'Muéstrame los productos'\n" ++
  "➕ Añadir al carrito: 'Añade 2 Camiseta Básica'\n" ++
  "🛒 Ver carrito: 'Qué llevo en el carrito'\n" ++
  "💳 Comprar: 'Quiero finalizar la compra'\n" ++
  "👋 Salir: 'Salir'\n\n" ++
  "¿Qué te gustaría hacer?"

/-- Embeds `_show_welcome_message`. -/
def _show_welcome_message (s : ConvState) : ConvState :=
  { (appendAI s welcomeMessage) with stage := .shopping, current_intent := .unknown }

/-- Embeds `UserIntent(value)` — the enum lookup (raising `ValueError` on any
    other label, which the caller maps to UNKNOWN). -/
def intentOfString (s : String) : Option UserIntent :=
  if s = "browse" then some .browse
  else if s = "manage_cart" then some .manage_cart
  else if s = "view_cart" then some .view_cart
  else if s = "checkout" then some .checkout
  else if s = "out_of_context" then some .out_of_context
  else if s = "unknown" then some .unknown
  else if s = "exit" then some .exit
  else none

/-- Result of `detect_intent_node`, instrumented with whether
    `llm.invoke` ran on this path. -/
structure DetectResult where
  state : ConvState
  llm_called : Bool
deriving Repr, DecidableEq

/-- Embeds `detect_intent_node`.  The LLM reply enters as `llmReply`
    (`.error` = the call raised; caught and mapped to UNKNOWN). -/
def detect_intent_node (llmReply : Except String String) (s : ConvState) : DetectResult :=
  if s.messages.length = 1 then ⟨_show_welcome_message s, false⟩
  else if get_last_user_message s = "" then
    ⟨{ s with current_intent := .unknown }, false⟩
  else if s.stage = ConversationStage.checkout ∧
      (¬ optTruthy s.customer_name ∨ ¬ optTruthy s.customer_city) then
    ⟨{ s with current_intent := .checkout }, false⟩
  else
    match llmReply with
    | .error _ => ⟨{ s with current_intent := .unknown }, true⟩
    | .ok content =>
        match intentOfString (pyLower (pyUpper (pyStrip content))) with
        | some i => ⟨{ s with current_intent := i }, true⟩
        | none => ⟨{ s with current_intent := .unknown }, true⟩

/-- C7 counterexample: an empty (but present) user message mid-checkout
    with the name still missing is classified UNKNOWN by the
    `if not user_message` guard, not CHECKOUT as the claim states (the
    model is still not invoked).  Reachable through
    `ShoppingChatBot.send_message("")`. -/
theorem detect_intent_empty_message_counterexample :
    (detect_intent_node (Except.ok "BROWSE")
      { messages := [Msg.human "hola", Msg.ai welcomeMessage, Msg.human ""],
        cart := wCart, current_intent := .checkout, stage := .checkout,
        last_search_results := none, last_product_id := none,
        customer_name := none, customer_city := none, order := none,
        session_id := "s1" }).state.current_intent = UserIntent.unknown ∧
    UserIntent.unknown ≠ UserIntent.checkout := by
  constructor
  · rfl
  · decide

/-- C7 (amended: the utterance must be non-empty — the source maps an
    empty utterance to UNKNOWN before the override).  For any non-first,
    non-empty user message with stage CHECKOUT and name or city missing,
    the intent is forced to CHECKOUT and the LLM is not invoked. -/
theorem detect_intent_checkout_override (llmReply : Except String String) (s : ConvState)
    (hlen : s.messages.length ≠ 1)
    (hmsg : get_last_user_message s ≠ "")
    (hstage : s.stage = ConversationStage.checkout)
    (hmiss : optTruthy s.customer_name = false ∨ optTruthy s.customer_city = false) :
    detect_intent_node llmReply s =
      ⟨{ s with current_intent := .checkout }, false⟩ := by
  unfold detect_intent_node
  rw [if_neg hlen, if_neg hmsg, if_pos ?_]
  refine ⟨hstage, ?_⟩
  rcases hmiss with h | h
  · left; simp [h]
  · right; simp [h]

/-- Witness for C7 at a concrete state: mid-checkout with a name already
    collected but no city, utterance "Madrid". -/
theorem detect_intent_checkout_override_witness :
    detect_intent_node (Except.ok "BROWSE")
      { messages := [Msg.human "hola", Msg.ai welcomeMessage, Msg.human "Madrid"],
        cart := wCart, current_intent := .checkout, stage := .checkout,
        last_search_results := none, last_product_id := none,
        customer_name := some "Juan", customer_city := none, order := none,
        session_id := "s1" } =
      ⟨{ messages := [Msg.human "hola", Msg.ai welcomeMessage, Msg.human "Madrid"],
         cart := wCart, current_intent := .checkout, stage := .checkout,
         last_search_results := none, last_product_id := none,
         customer_name := some "Juan", customer_city := none, order := none,
         session_id := "s1" }, false⟩ :=
  detect_intent_checkout_override (Except.ok "BROWSE") _
    (by decide) (by decide) rfl (Or.inr (by decide))

lemma listHasSub_iff (sub l : List Char) : listHasSub sub l = true ↔ sub <:+: l := by
  induction l with
  | nil =>
      rw [listHasSub]
      constructor
      · intro h
        have : sub = [] := by simpa [List.isEmpty_iff] using h
        simp [this]
      · intro h
        have : sub = [] := List.eq_nil_of_infix_nil h
        simp [this, List.isEmpty_iff]
  | cons c rest ih =>
      rw [listHasSub, List.infix_cons_iff, Bool.or_eq_true, List.isPrefixOf_iff_prefix, ih]

lemma strHasSub_middle (a x b : String) : strHasSub (a ++ x ++ b) x = true := by
  rw [strHasSub, listHasSub_iff, String.data_append, String.data_append]
  exact List.infix_append _ _ _

/-- Python `f"{q:.2f}"` on ideal decimal values: sign, integer part, two
    fractional digits (round half to even, as CPython's float formatting
    does). -/
def formatMoney (q : ℚ) : String :=
  (if pyRoundHalfEven (q * 100) < 0 then "-" else "") ++
    toString ((pyRoundHalfEven (q * 100)).natAbs / 100) ++ "." ++
    (if (pyRoundHalfEven (q * 100)).natAbs % 100 < 10 then
      "0" ++ toString ((pyRoundHalfEven (q * 100)).natAbs % 100)
    else toString ((pyRoundHalfEven (q * 100)).natAbs % 100))

/-- One line of `browse_products_node`'s listing (the source interpolates
    `p.price` with `str(float)`; the exact float repr carries no claim,
    the rational's repr stands in for it). -/
def browseLine (i : Nat) (p : Product) : String :=
  toString (i + 1) ++ ". **" ++ p.name ++ "** - $" ++ toString p.price ++ " (" ++
    p.category ++ ") - Stock: " ++ toString p.stock ++ "\n"

/-- Embeds `browse_products_node`: snapshot the catalog into
    `last_search_results`, append the listing, stage SHOPPING. -/
def browse_products_node (catalog : Catalog) (s : ConvState) : ConvState :=
  let s1 := { s with last_search_results := some (catalog.products.map (fun p =>
    ⟨p.id, p.name, p.price, p.category, p.stock⟩)) }
  let response := "📦 **Productos disponibles:**\n\n" ++
    String.join ((catalog.products.enum.map (fun pi => browseLine pi.1 pi.2))) ++
    "\n💡 Puedes decir: 'Añade 2 Camiseta Básica Azul' o 'Quiero producto 1'"
  { (appendAI s1 response) with stage := .shopping }

/-- One line of the cart rendering in `view_cart_node`. -/
def cartLine (kv : String × CartItem) : String :=
  "- " ++ toString kv.2.quantity ++ "x " ++ kv.2.product.name ++ " - $" ++
    formatMoney kv.2.subtotal ++ "\n"

/-- Embeds `view_cart_node` (does not change the stage). -/
def view_cart_node (s : ConvState) : ConvState :=
  if s.cart.is_empty then
    appendAI s "🛒 Tu carrito está vacío.\n\n💡 Puedes ver productos con: 'Muéstrame los productos'"
  else
    appendAI s ("🛒 **Tu carrito:**\n\n" ++ String.join (s.cart.items.map cartLine) ++
      "\n**Total: $" ++ formatMoney s.cart.get_total ++ "**" ++
      "\n\n💡 ¿Quieres finalizar la compra?")

/-- Embeds `out_of_context_node`: LLM reply trimmed, or the fixed fallback. -/
def out_of_context_node (oocReply : Except String String) (s : ConvState) : ConvState :=
  match oocReply with
  | .ok content => { (appendAI s (pyStrip content)) with stage := .shopping }
  | .error _ =>
      { (appendAI s ("Soy un asistente de compras y solo puedo ayudarte con productos. " ++
          "¿Quieres ver nuestro catálogo?")) with stage := .shopping }

/-- The checkout trigger words of `_collect_customer_name`. -/
def checkoutTriggerWords : List String :=
  ["comprar", "finalizar", "checkout", "pagar"]

/-- Embeds `_extract_name_from_message`: strip, remove the first matching
    leading phrase, `None` when empty. -/
def _extract_name_from_message (message : String) : Option String :=
  let name :=
    match ["mi nombre es", "me llamo", "soy", "mi nombre:"].find?
        (fun ph => strStarts (pyLower (pyStrip message)) ph) with
    | some ph => pyStrip (strDropChars (pyStrip message) ph.length)
    | none => pyStrip message
  if name = "" then none else some name

/-- Embeds `_collect_customer_name`. -/
def _collect_customer_name (s : ConvState) (user_message : String) : ConvState :=
  if checkoutTriggerWords.any (fun w => strHasSub (pyLower user_message) w) then
    { (appendAI s "📝 Para completar la compra necesito tus datos.\n¿Cuál es tu nombre?") with
      stage := .checkout }
  else
    match _extract_name_from_message user_message with
    | some name =>
        { (appendAI { s with customer_name := some name } "✅ Perfecto. ¿En qué ciudad?") with
          stage := .checkout }
    | none =>
        { (appendAI s "⚠️ No entendí tu nombre. ¿Cuál es tu nombre?") with stage := .checkout }

/-- The per-item lines of `_format_order_confirmation`. -/
def renderOrderItems (c : ShoppingCart) : String :=
  String.join (c.items.map cartLine)

/-- Embeds `_format_order_confirmation`. -/
def _format_order_confirmation (o : Order) : String :=
  "✅ **¡Pedido confirmado!**\n\n" ++
  "📦 **Orden #" ++ o.order_id ++ "**\n" ++
  "👤 Cliente: " ++ o.customer_name ++ "\n" ++
  "📍 Ciudad: " ++ o.customer_city ++ "\n\n" ++
  "**Productos:**\n" ++
  renderOrderItems o.cart ++
  "\n💰 **Total: $" ++ formatMoney o.total ++ "**\n\n" ++
  "¡Gracias por tu compra! 🎉"

/-- Embeds `_complete_order`: store the stripped city, create the order (the
    raised `ValidationError` propagates out of the node), store it,
    append the confirmation, clear the cart, stage COMPLETED. -/
def _complete_order (order_id : String) (s : ConvState) (city : String) :
    Except String ConvState :=
  match Order.create_from_cart s.cart (s.customer_name.getD "") (pyStrip city) order_id with
  | .error e => .error e
  | .ok order =>
      let s1 : ConvState :=
        { s with
          customer_city := some (pyStrip city)
          order := some order
          cart := s.cart.clear }
      .ok { (appendAI s1 (_format_order_confirmation order)) with stage := .completed }

/-- Embeds `checkout_node`: empty cart → guidance + SHOPPING; no name → collect
    name; no city → complete the order; both already set → falls through
    returning the state unchanged (no message!). -/
def checkout_node (order_id : String) (s : ConvState) : Except String ConvState :=
  if s.cart.is_empty then
    .ok ({ (appendAI s "⚠️ Tu carrito está vacío. Añade productos antes de comprar.") with
      stage := .shopping })
  else if ¬ optTruthy s.customer_name then
    .ok (_collect_customer_name s (get_last_user_message s))
  else if ¬ optTruthy s.customer_city then
    _complete_order order_id s (get_last_user_message s)
  else .ok s

lemma strHasSub_self (x : String) : strHasSub x x = true := by
  rw [strHasSub, listHasSub_iff]

lemma strHasSub_append_left (a b x : String) (h : strHasSub a x = true) :
    strHasSub (a ++ b) x = true := by
  rw [strHasSub, listHasSub_iff] at h ⊢
  rw [String.data_append]
  exact h.trans ⟨[], b.data, by simp⟩

lemma strHasSub_append_right (a b x : String) (h : strHasSub b x = true) :
    strHasSub (a ++ b) x = true := by
  rw [strHasSub, listHasSub_iff] at h ⊢
  rw [String.data_append]
  exact h.trans ⟨a.data, [], by simp⟩

lemma format_order_confirmation_contains (o : Order) :
    strHasSub (_format_order_confirmation o) o.order_id = true ∧
    strHasSub (_format_order_confirmation o) o.customer_name = true ∧
    strHasSub (_format_order_confirmation o) o.customer_city = true ∧
    strHasSub (_format_order_confirmation o) (renderOrderItems o.cart) = true ∧
    strHasSub (_format_order_confirmation o) (formatMoney o.total) = true := by
  rw [_format_order_confirmation]
  refine ⟨?_, ?_, ?_, ?_, ?_⟩
  · iterate 13 apply strHasSub_append_left
    apply strHasSub_append_right
    exact strHasSub_self _
  · iterate 10 apply strHasSub_append_left
    apply strHasSub_append_right
    exact strHasSub_self _
  · iterate 7 apply strHasSub_append_left
    apply strHasSub_append_right
    exact strHasSub_self _
  · iterate 4 apply strHasSub_append_left
    apply strHasSub_append_right
    exact strHasSub_self _
  · iterate 2 apply strHasSub_append_left
    apply strHasSub_append_right
    exact strHasSub_self _

/-- The order value `_complete_order` builds when it succeeds. -/
def completedOrder (order_id : String) (s : ConvState) : Order :=
  ⟨order_id, s.cart, pyStrip (s.customer_name.getD ""),
    pyStrip (pyStrip (get_last_user_message s)), round2 s.cart.get_total⟩

/-- The state `_complete_order` leaves behind when it succeeds. -/
def completedState (order_id : String) (s : ConvState) : ConvState :=
  { (appendAI
      { s with
        customer_city := some (pyStrip (get_last_user_message s))
        order := some (completedOrder order_id s)
        cart := ⟨[]⟩ }
      (_format_order_confirmation (completedOrder order_id s))) with stage := .completed }

lemma checkout_node_city_ok {s : ConvState} (order_id : String)
    (hne : s.cart.is_empty = false)
    (hname : optTruthy s.customer_name = true)
    (hnamev : pyStrip (s.customer_name.getD "") ≠ "")
    (hcity : optTruthy s.customer_city = false)
    (hum : pyStrip (pyStrip (get_last_user_message s)) ≠ "")
    (htot : 0 ≤ s.cart.get_total) :
    checkout_node order_id s = Except.ok (completedState order_id s) := by
  rw [checkout_node, if_neg (by simp [hne]), if_neg (by simp [hname]),
    if_pos (by simp [hcity]), _complete_order]
  have hcreate : Order.create_from_cart s.cart (s.customer_name.getD "")
      (pyStrip (get_last_user_message s)) order_id =
      Except.ok (completedOrder order_id s) := by
    rw [Order.create_from_cart, if_neg (by simp [hne]), if_neg hnamev, if_neg hum,
      if_neg (not_lt.mpr htot)]
    rfl
  rw [hcreate]
  rfl

/-- The mid-checkout state (name collected, city pending) used by the C2
    counterexample: the pending utterance is whitespace-only. -/
def blankCityState : ConvState :=
  { messages := [Msg.human "hola", Msg.ai welcomeMessage, Msg.human "comprar",
      Msg.ai "📝 Para completar la compra necesito tus datos.\n¿Cuál es tu nombre?",
      Msg.human "Juan", Msg.ai "✅ Perfecto. ¿En qué ciudad?", Msg.human "   "],
    cart := wCart, current_intent := .checkout, stage := .checkout,
    last_search_results := none, last_product_id := none,
    customer_name := some "Juan", customer_city := none, order := none,
    session_id := "s1" }

/-- C2 counterexample: with a non-empty cart, name set and city unset, a
    whitespace-only utterance makes `Order.create_from_cart` raise the
    pydantic min-length `ValueError`, so the checkout handler aborts:
    no order is stored, no confirmation is appended, the cart is not
    cleared and the stage is not COMPLETED — against the claim's "on any
    user utterance". -/
theorem checkout_blank_city_counterexample :
    checkout_node "ORD-9" blankCityState = Except.error "El campo no puede estar vacío" := by
  rfl

/-- C2 (amended: the utterance must have non-whitespace content; a blank
    city aborts the handler with a `ValueError`).  With a non-empty cart
    of non-negative total, a non-blank stored name and no city, the
    handler takes the utterance as the city, stores the created order,
    appends one confirmation containing the order id, customer, city,
    itemized lines and total, clears the cart and sets stage COMPLETED. -/
theorem checkout_city_completes (s : ConvState) (order_id : String)
    (hne : s.cart.is_empty = false)
    (hname : optTruthy s.customer_name = true)
    (hnamev : pyStrip (s.customer_name.getD "") ≠ "")
    (hcity : optTruthy s.customer_city = false)
    (hum : pyStrip (pyStrip (get_last_user_message s)) ≠ "")
    (htot : 0 ≤ s.cart.get_total) :
    ∃ s', checkout_node order_id s = Except.ok s' ∧
      s'.order = some (completedOrder order_id s) ∧
      (completedOrder order_id s).total = round2 s.cart.get_total ∧
      (completedOrder order_id s).customer_city =
        pyStrip (pyStrip (get_last_user_message s)) ∧
      s'.customer_city = some (pyStrip (get_last_user_message s)) ∧
      s'.cart = (⟨[]⟩ : ShoppingCart) ∧
      s'.stage = ConversationStage.completed ∧
      s'.messages = s.messages ++
        [Msg.ai (_format_order_confirmation (completedOrder order_id s))] ∧
      strHasSub (_format_order_confirmation (completedOrder order_id s)) order_id = true ∧
      strHasSub (_format_order_confirmation (completedOrder order_id s))
        (pyStrip (s.customer_name.getD "")) = true ∧
      strHasSub (_format_order_confirmation (completedOrder order_id s))
        (pyStrip (pyStrip (get_last_user_message s))) = true ∧
      strHasSub (_format_order_confirmation (completedOrder order_id s))
        (renderOrderItems s.cart) = true ∧
      strHasSub (_format_order_confirmation (completedOrder order_id s))
        (formatMoney (round2 s.cart.get_total)) = true := by
  have hcontain := format_order_confirmation_contains (completedOrder order_id s)
  refine ⟨completedState order_id s, checkout_node_city_ok order_id hne hname hnamev hcity hum htot,
    rfl, rfl, rfl, rfl, rfl, rfl, rfl, ?_, ?_, ?_, ?_, ?_⟩
  · exact hcontain.1
  · exact hcontain.2.1
  · exact hcontain.2.2.1
  · exact hcontain.2.2.2.1
  · exact hcontain.2.2.2.2

/-- The state used by the C2/C4 witnesses: like `blankCityState` but the
    pending utterance is "Madrid". -/
def cityMadridState : ConvState :=
  { messages := [Msg.human "hola", Msg.ai welcomeMessage, Msg.human "comprar",
      Msg.ai "📝 Para completar la compra necesito tus datos.\n¿Cuál es tu nombre?",
      Msg.human "Juan", Msg.ai "✅ Perfecto. ¿En qué ciudad?", Msg.human "Madrid"],
    cart := wCart, current_intent := .checkout, stage := .checkout,
    last_search_results := none, last_product_id := none,
    customer_name := some "Juan", customer_city := none, order := none,
    session_id := "s1" }

lemma wCart_total_nonneg : 0 ≤ wCart.get_total := by
  refine get_total_nonneg ?_
  intro kv hkv
  have : kv = ("p1", ⟨wProduct, 3⟩) := by
    simpa [wCart, List.mem_singleton] using hkv
  subst this
  exact round2_nonneg (mul_nonneg (by decide) (by decide))

/-- Witness for C2 at `cityMadridState`: the order is created and stored,
    the cart cleared and the stage COMPLETED. -/
theorem checkout_city_completes_witness :
    ∃ s', checkout_node "ORD-1" cityMadridState = Except.ok s' ∧
      s'.order = some (completedOrder "ORD-1" cityMadridState) ∧
      s'.cart = (⟨[]⟩ : ShoppingCart) ∧
      s'.stage = ConversationStage.completed := by
  obtain ⟨s', h1, h2, _, _, _, h3, h4, _⟩ := checkout_city_completes cityMadridState "ORD-1"
    (by decide) (by decide) (by decide) (by decide) (by decide) wCart_total_nonneg
  exact ⟨s', h1, h2, h3, h4⟩

/-- Embeds `_handle_llm_error` — maps a raised exception's text to one of three
    fixed user-facing strings by substring tests. -/
def _handle_llm_error (e : String) : String :=
  if strHasSub e "API key" ∨ strHasSub e "401" ∨ strHasSub e "Unauthorized" then
    "⚠️ Error de configuración de API key. Por favor verifica tu archivo .env."
  else if strHasSub e "429" ∨ strHasSub e "rate_limit" ∨ strHasSub (pyLower e) "quota" then
    "⚠️ Límite de rate de API excedido. Por favor espera unos minutos e intenta de nuevo."
  else "❌ Ocurrió un error. Por favor intenta de nuevo."

/-- The decoded `product_reference` JSON object of the extraction reply. -/
structure RawRef where
  type : Option String
  value : Option String
deriving Repr, DecidableEq

/-- The decoded JSON object of the extraction reply (`data` in
    `_extract_cart_action`; missing keys are `none`). -/
structure RawAction where
  action : Option String
  quantity : Option Int
  product_reference : Option RawRef
deriving Repr, DecidableEq

/-- Embeds `_extract_cart_action`'s result dict after the `.get` defaults. -/
structure CartActionData where
  action : String
  quantity : Int
  product_ref : RawRef
deriving Repr, DecidableEq

/-- Embeds `_extract_cart_action`.  The oracle is the decoded LLM reply:
    `.error` = `llm.invoke` raised; `.ok none` = the reply did not decode
    to JSON (→ `None`); `.ok (some raw)` = the decoded object. -/
def _extract_cart_action (oracle : Except String (Option RawAction)) :
    Except String (Option CartActionData) :=
  match oracle with
  | .error e => .error e
  | .ok none => .ok none
  | .ok (some raw) =>
      .ok (some ⟨raw.action.getD "add", raw.quantity.getD 1,
        raw.product_reference.getD ⟨none, none⟩⟩)

/-- Python `int(str)` as used on an index reference (`ValueError` on
    non-numeric text is caught and falls through to `None`). -/
def pyParseInt (s : String) : Option Int :=
  (pyStrip s).toInt?

/-- Embeds `_find_product`.  `.error` models the uncaught `TypeError` of
    `len(None)` when an index reference arrives before any browse set
    `last_search_results` (the narrow `except ValueError` misses it). -/
def _find_product (catalog : Catalog) (a : CartActionData) (s : ConvState) :
    Except String (Option Product) :=
  if a.product_ref.type.getD "name" = "last" then
    .ok (match s.last_product_id with
      | some pid => if pid = "" then none else catalog.get_by_id pid
      | none => none)
  else if a.product_ref.type.getD "name" = "id" then
    .ok (catalog.get_by_id (a.product_ref.value.getD ""))
  else if a.product_ref.type.getD "name" = "index" then
    match pyParseInt (a.product_ref.value.getD "") with
    | none => .ok none
    | some v =>
        match s.last_search_results with
        | none => .error "object of type 'NoneType' has no len()"
        | some results =>
            if 0 ≤ v - 1 ∧ v - 1 < (results.length : Int) then
              .ok (match results[(v - 1).toNat]? with
                | some r => catalog.get_by_id r.id
                | none => none)
            else .ok none
  else if a.product_ref.type.getD "name" = "name" then
    .ok (match catalog.get_by_id (a.product_ref.value.getD "") with
      | some p => some p
      | none => catalog.get_by_name (a.product_ref.value.getD ""))
  else .ok none

/-- The insufficient-stock warning of `_add_to_cart` /
    `_update_cart_quantity`. -/
def stockWarningMsg (product : Product) : String :=
  "⚠️ Solo hay " ++ toString product.stock ++ " unidades de " ++ product.name ++
    " disponibles."

/-- Embeds `_add_to_cart`: pre-checks only `stock >= quantity` (not the
    cumulative quantity!), then calls `cart.add_item`, whose raised
    `ValueError` propagates. -/
def _add_to_cart (cart : ShoppingCart) (product : Product) (quantity : Int) :
    Except String (String × ShoppingCart) :=
  if product.stock ≥ quantity then
    match cart.add_item product quantity with
    | .ok c' => .ok ("✅ " ++ toString quantity ++ "x " ++ product.name ++
        " añadido al carrito.", c')
    | .error e => .error e
  else .ok (stockWarningMsg product, cart)

/-- Embeds `_update_cart_quantity`. -/
def _update_cart_quantity (cart : ShoppingCart) (product : Product) (quantity : Int) :
    Except String (String × ShoppingCart) :=
  if ¬ cart.has_product product.id then
    if product.stock ≥ quantity then
      match cart.add_item product quantity with
      | .ok c' => .ok ("✅ " ++ toString quantity ++ "x " ++ product.name ++
          " añadido al carrito.", c')
      | .error e => .error e
    else .ok (stockWarningMsg product, cart)
  else
    match cart.get_item product.id with
    | none => .error "AttributeError"
    | some current_item =>
        if quantity = 0 then
          match cart.remove_item product.id with
          | .ok c' => .ok ("✅ " ++ product.name ++ " eliminado del carrito.", c')
          | .error e => .error e
        else if product.stock ≥ quantity then
          match cart.update_quantity product.id quantity with
          | .ok c' => .ok ("✅ Cantidad de " ++ product.name ++ " actualizada: " ++
              toString current_item.quantity ++ " → " ++ toString quantity, c')
          | .error e => .error e
        else .ok (stockWarningMsg product, cart)

/-- Embeds `_remove_from_cart`. -/
def _remove_from_cart (cart : ShoppingCart) (product : Product) (quantity : Int) :
    Except String (String × ShoppingCart) :=
  if ¬ cart.has_product product.id then
    .ok ("⚠️ " ++ product.name ++ " no está en tu carrito.", cart)
  else
    match cart.get_item product.id with
    | none => .error "AttributeError"
    | some current_item =>
        if quantity ≥ current_item.quantity then
          match cart.remove_item product.id with
          | .ok c' => .ok ("✅ " ++ product.name ++ " eliminado del carrito.", c')
          | .error e => .error e
        else
          match cart.update_quantity product.id (current_item.quantity - quantity) with
          | .ok c' => .ok ("✅ Reducida cantidad de " ++ product.name ++ ": " ++
              toString current_item.quantity ++ " → " ++
              toString (current_item.quantity - quantity), c')
          | .error e => .error e

/-- Embeds `_execute_cart_action`: dispatch on the action string ("add" is the
    default branch). -/
def _execute_cart_action (a : CartActionData) (product : Product) (cart : ShoppingCart) :
    Except String (String × ShoppingCart) :=
  if a.action = "remove" then _remove_from_cart cart product a.quantity
  else if a.action = "update" then _update_cart_quantity cart product a.quantity
  else _add_to_cart cart product a.quantity

/-- Embeds `_send_cart_error_message`. -/
def _send_cart_error_message (s : ConvState) (is_parse : Bool) : ConvState :=
  let message := if is_parse then
      "❌ No entendí eso. Intenta con: 'Añade 2 Camiseta Básica' o 'Quiero producto 1'"
    else
      "❌ No encontré ese producto. Intenta con: 'Añade 2 Camiseta Básica Azul' o 'Quiero producto 1'"
  { (appendAI s message) with stage := .shopping }

/-- Embeds `manage_cart_node`: any exception raised inside the `try` block is
    caught and rendered via `_handle_llm_error`; every path appends
    exactly one assistant message and sets stage SHOPPING. -/
def manage_cart_node (catalog : Catalog) (extractOracle : Except String (Option RawAction))
    (s : ConvState) : ConvState :=
  match _extract_cart_action extractOracle with
  | .error e => { (appendAI s (_handle_llm_error e)) with stage := .shopping }
  | .ok none => _send_cart_error_message s true
  | .ok (some action_data) =>
      match _find_product catalog action_data s with
      | .error e => { (appendAI s (_handle_llm_error e)) with stage := .shopping }
      | .ok none => _send_cart_error_message s false
      | .ok (some product) =>
          match _execute_cart_action action_data product
              { s with last_product_id := some product.id }.cart with
          | .ok rc =>
              { (appendAI { s with last_product_id := some product.id, cart := rc.2 }
                  rc.1) with stage := .shopping }
          | .error e =>
              { (appendAI { s with last_product_id := some product.id }
                  (_handle_llm_error e)) with stage := .shopping }

/-- Concrete one-product catalog for witnesses and runs. -/
def catW : Catalog := ⟨[wProduct]⟩

/-- The conversation state of the C8 counterexample: `wCart` already
    holds 3 units of the stock-5 product. -/
def cumulAddState : ConvState :=
  { messages := [Msg.human "hola", Msg.ai welcomeMessage, Msg.human "añade 4 camisetas"],
    cart := wCart, current_intent := .manage_cart, stage := .shopping,
    last_search_results := none, last_product_id := none,
    customer_name := none, customer_city := none, order := none,
    session_id := "s1" }

/-- The extraction oracle of the C8 counterexample: add 4 of "p1". -/
def cumulAddOracle : Except String (Option RawAction) :=
  Except.ok (some ⟨some "add", some 4, some ⟨some "id", some "p1"⟩⟩)

/-- C8 counterexample: adding 4 units when 3 are already in the cart and
    stock is 5 passes `_add_to_cart`'s pre-check (5 ≥ 4), so
    `cart.add_item` raises on the cumulative check, the generic
    `_handle_llm_error` text is appended — not the insufficient-stock
    warning the claim requires — and the cart is left unchanged. -/
theorem manage_cart_cumulative_counterexample :
    manage_cart_node catW cumulAddOracle cumulAddState =
      { (appendAI { cumulAddState with last_product_id := some "p1" }
          "❌ Ocurrió un error. Por favor intenta de nuevo.") with stage := .shopping } ∧
    "❌ Ocurrió un error. Por favor intenta de nuevo." ≠ stockWarningMsg wProduct := by
  constructor
  · rfl
  · decide

/-- C8 (amended).  On a manage-cart turn whose extracted action resolves
    to `product`: (a) an add whose requested quantity alone exceeds stock
    appends the insufficient-stock warning with the cart unchanged;
    (b) an add whose requested quantity fits stock but whose cumulative
    cart quantity exceeds it raises inside `cart.add_item` and the
    handler appends the generic `_handle_llm_error` text instead of the
    stock warning — the cart is still unchanged; (c) an update whose
    quantity exceeds stock appends the warning with the cart unchanged. -/
theorem manage_cart_stock_handling (catalog : Catalog) (x : Except String (Option RawAction))
    (s : ConvState) (a : CartActionData) (product : Product)
    (hex : _extract_cart_action x = Except.ok (some a))
    (hfind : _find_product catalog a s = Except.ok (some product)) :
    (a.action = "add" → product.stock < a.quantity →
      manage_cart_node catalog x s =
        { (appendAI { s with last_product_id := some product.id }
            (stockWarningMsg product)) with stage := .shopping }) ∧
    (a.action = "add" → 0 < a.quantity → a.quantity ≤ product.stock →
      ∀ item, dictGet s.cart.items product.id = some item →
        product.stock < item.quantity + a.quantity →
        manage_cart_node catalog x s =
          { (appendAI { s with last_product_id := some product.id }
              (_handle_llm_error ("Stock insuficiente para " ++ product.name ++
                ". Tienes " ++ toString item.quantity ++
                " en el carrito, disponible: " ++ toString product.stock))) with
            stage := .shopping }) ∧
    (a.action = "update" → 0 < a.quantity → product.stock < a.quantity →
      manage_cart_node catalog x s =
        { (appendAI { s with last_product_id := some product.id }
            (stockWarningMsg product)) with stage := .shopping }) := by
  refine ⟨?_, ?_, ?_⟩
  · intro ha hstock
    have hexec : _execute_cart_action a product s.cart =
        Except.ok (stockWarningMsg product, s.cart) := by
      rw [_execute_cart_action, if_neg (by simp [ha]), if_neg (by simp [ha]),
        _add_to_cart, if_neg (by simp; omega)]
    simp only [manage_cart_node, hex, hfind, hexec]
  · intro ha hq hstock item hitem hcum
    have hadd : s.cart.add_item product a.quantity = Except.error
        ("Stock insuficiente para " ++ product.name ++ ". Tienes " ++
          toString item.quantity ++ " en el carrito, disponible: " ++
          toString product.stock) := by
      rw [ShoppingCart.add_item, if_neg (by omega)]
      rw [if_neg (by simp [Product.is_available]; omega)]
      simp only [hitem]
      rw [if_pos (by simp [Product.is_available]; omega)]
    have hexec : _execute_cart_action a product s.cart = Except.error
        ("Stock insuficiente para " ++ product.name ++ ". Tienes " ++
          toString item.quantity ++ " en el carrito, disponible: " ++
          toString product.stock) := by
      rw [_execute_cart_action, if_neg (by simp [ha]), if_neg (by simp [ha]),
        _add_to_cart, if_pos (by omega), hadd]
    simp only [manage_cart_node, hex, hfind, hexec]
  · intro ha hq hstock
    have hexec : _execute_cart_action a product s.cart =
        Except.ok (stockWarningMsg product, s.cart) := by
      rw [_execute_cart_action, if_neg (by simp [ha]), if_pos (by simp [ha]),
        _update_cart_quantity]
      by_cases hhas : s.cart.has_product product.id = true
      · rw [if_neg (by simp [hhas])]
        rcases hg : s.cart.get_item product.id with _ | current_item
        · rw [ShoppingCart.has_product] at hhas
          rw [ShoppingCart.get_item] at hg
          rw [hg] at hhas
          cases hhas
        · simp only [hg]
          rw [if_neg (by omega), if_neg (by simp; omega)]
      · rw [if_pos (by simpa using hhas), if_neg (by simp; omega)]
    simp only [manage_cart_node, hex, hfind, hexec]

/-- Witness for C8 at concrete input: requesting 9 of the stock-5
    product appends the warning and leaves the (empty) cart unchanged. -/
theorem manage_cart_stock_handling_witness :
    manage_cart_node catW (Except.ok (some ⟨some "add", some 9, some ⟨some "id", some "p1"⟩⟩))
      (create_initial_state "s1") =
      { (appendAI { create_initial_state "s1" with last_product_id := some "p1" }
          (stockWarningMsg wProduct)) with stage := .shopping } := by
  have h := manage_cart_stock_handling catW
    (Except.ok (some ⟨some "add", some 9, some ⟨some "id", some "p1"⟩⟩))
    (create_initial_state "s1") ⟨"add", 9, ⟨some "id", some "p1"⟩⟩ wProduct rfl rfl
  exact h.1 rfl (by decide)

/-- The routing targets of `edges.route_by_intent` ("END" = `finish`). -/
inductive Route where
  | browse
  | manage_cart
  | view_cart
  | checkout
  | out_of_context
  | finish
deriving Repr, DecidableEq

/-- Embeds `edges.route_by_intent`: EXIT and UNKNOWN end the turn. -/
def route_by_intent (s : ConvState) : Route :=
  match s.current_intent with
  | .exit => .finish
  | .browse => .browse
  | .manage_cart => .manage_cart
  | .view_cart => .view_cart
  | .checkout => .checkout
  | .out_of_context => .out_of_context
  | .unknown => .finish

/-- Per-turn external inputs: the LLM replies and the generated order id
    (wall-clock + UUID in the source). -/
structure TurnOracle where
  intentReply : Except String String
  extractReply : Except String (Option RawAction)
  oocReply : Except String String
  order_id : String

/-- Dispatch to the handler selected by the edge (exceptions from
    `checkout_node` propagate out of `graph.invoke`). -/
def runHandler (catalog : Catalog) (o : TurnOracle) (s1 : ConvState) :
    Except String ConvState :=
  match route_by_intent s1 with
  | .browse => .ok (browse_products_node catalog s1)
  | .manage_cart => .ok (manage_cart_node catalog o.extractReply s1)
  | .view_cart => .ok (view_cart_node s1)
  | .checkout => checkout_node o.order_id s1
  | .out_of_context => .ok (out_of_context_node o.oocReply s1)
  | .finish => .ok s1

/-- Embeds `builder.run_conversation_turn`: detect intent, route, run exactly
    one handler, end the turn. -/
def run_conversation_turn (catalog : Catalog) (o : TurnOracle) (s : ConvState) :
    Except String ConvState :=
  runHandler catalog o (detect_intent_node o.intentReply s).state

/-- Embeds `ShoppingChatBot.send_message`: append the user message, run one
    turn. -/
def send_message (catalog : Catalog) (o : TurnOracle) (text : String) (s : ConvState) :
    Except String ConvState :=
  run_conversation_turn catalog o { s with messages := s.messages ++ [Msg.human text] }

/-- Conversation states reachable through the public entry points with
    some sequence of user messages and LLM replies. -/
inductive ReachableConv (catalog : Catalog) : ConvState → Prop where
  | init (session_id : String) : ReachableConv catalog (create_initial_state session_id)
  | step {s s' : ConvState} (o : TurnOracle) (text : String)
      (h : ReachableConv catalog s) (heq : send_message catalog o text s = Except.ok s') :
      ReachableConv catalog s'

/-- C4 (amended).  Browse, view-cart, manage-cart and out-of-context
    always append exactly one assistant message; checkout appends exactly
    one on the empty-cart, collect-name and (successful) collect-city
    paths, but appends none — returning the state unchanged — when cart,
    name and city are all already set (and aborts with no message when
    order validation raises, per the C2 analysis). -/
theorem handlers_message_discipline :
    (∀ (catalog : Catalog) (s : ConvState),
      ∃ m, (browse_products_node catalog s).messages = s.messages ++ [Msg.ai m]) ∧
    (∀ s : ConvState, ∃ m, (view_cart_node s).messages = s.messages ++ [Msg.ai m]) ∧
    (∀ (catalog : Catalog) (x : Except String (Option RawAction)) (s : ConvState),
      ∃ m, (manage_cart_node catalog x s).messages = s.messages ++ [Msg.ai m]) ∧
    (∀ (r : Except String String) (s : ConvState),
      ∃ m, (out_of_context_node r s).messages = s.messages ++ [Msg.ai m]) ∧
    (∀ (oid : String) (s : ConvState), s.cart.is_empty = true →
      ∃ s' m, checkout_node oid s = Except.ok s' ∧ s'.messages = s.messages ++ [Msg.ai m]) ∧
    (∀ (oid : String) (s : ConvState), s.cart.is_empty = false →
      optTruthy s.customer_name = false →
      ∃ s' m, checkout_node oid s = Except.ok s' ∧ s'.messages = s.messages ++ [Msg.ai m]) ∧
    (∀ (oid : String) (s : ConvState), s.cart.is_empty = false →
      optTruthy s.customer_name = true → pyStrip (s.customer_name.getD "") ≠ "" →
      optTruthy s.customer_city = false →
      pyStrip (pyStrip (get_last_user_message s)) ≠ "" → 0 ≤ s.cart.get_total →
      ∃ s' m, checkout_node oid s = Except.ok s' ∧ s'.messages = s.messages ++ [Msg.ai m]) ∧
    (∀ (oid : String) (s : ConvState), s.cart.is_empty = false →
      optTruthy s.customer_name = true → optTruthy s.customer_city = true →
      checkout_node oid s = Except.ok s) := by
  refine ⟨?_, ?_, ?_, ?_, ?_, ?_, ?_, ?_⟩
  · intro catalog s
    exact ⟨_, rfl⟩
  · intro s
    by_cases h : s.cart.is_empty = true
    · rw [view_cart_node, if_pos h]
      exact ⟨_, rfl⟩
    · rw [view_cart_node, if_neg h]
      exact ⟨_, rfl⟩
  · intro catalog x s
    rcases hex : _extract_cart_action x with e | od
    · simp only [manage_cart_node, hex]
      exact ⟨_, rfl⟩
    · rcases od with _ | a
      · simp only [manage_cart_node, hex]
        exact ⟨_, rfl⟩
      · rcases hfind : _find_product catalog a s with e | op
        · simp only [manage_cart_node, hex, hfind]
          exact ⟨_, rfl⟩
        · rcases op with _ | product
          · simp only [manage_cart_node, hex, hfind]
            exact ⟨_, rfl⟩
          · rcases hexec : _execute_cart_action a product s.cart with e | rc
            · simp only [manage_cart_node, hex, hfind]
              rw [show ({ s with last_product_id := some product.id } : ConvState).cart =
                s.cart from rfl, hexec]
              exact ⟨_, rfl⟩
            · simp only [manage_cart_node, hex, hfind]
              rw [show ({ s with last_product_id := some product.id } : ConvState).cart =
                s.cart from rfl, hexec]
              exact ⟨_, rfl⟩
  · intro r s
    rcases r with e | content
    · exact ⟨_, rfl⟩
    · exact ⟨_, rfl⟩
  · intro oid s h
    rw [checkout_node, if_pos h]
    exact ⟨_, _, rfl, rfl⟩
  · intro oid s hne hname
    rw [checkout_node, if_neg (by simp [hne]), if_pos (by simp [hname])]
    rw [_collect_customer_name]
    by_cases ht : checkoutTriggerWords.any
        (fun w => strHasSub (pyLower (get_last_user_message s)) w) = true
    · rw [if_pos ht]
      exact ⟨_, _, rfl, rfl⟩
    · rw [if_neg ht]
      rcases _extract_name_from_message (get_last_user_message s) with _ | name
      · exact ⟨_, _, rfl, rfl⟩
      · exact ⟨_, _, rfl, rfl⟩
  · intro oid s hne hname hnamev hcity hum htot
    exact ⟨completedState oid s, _,
      checkout_node_city_ok oid hne hname hnamev hcity hum htot, rfl⟩
  · intro oid s hne hname hcity
    rw [checkout_node, if_neg (by simp [hne]), if_neg (by simp [hname]),
      if_neg (by simp [hcity])]

/-- One unit of `wProduct` in the cart. -/
def cartA : ShoppingCart := ⟨[("p1", ⟨wProduct, 1⟩)]⟩

/-- Oracle for the first (welcome) turn — no reply is consulted. -/
def oWelcome : TurnOracle := ⟨Except.ok "", Except.ok none, Except.ok "", "ORD-0"⟩

/-- Oracle classifying MANAGE_CART and extracting "add 1 of name X". -/
def oManage : TurnOracle :=
  ⟨Except.ok "MANAGE_CART",
   Except.ok (some ⟨some "add", some 1, some ⟨some "name", some "X"⟩⟩),
   Except.ok "", "ORD-0"⟩

/-- Oracle classifying CHECKOUT; order ids come from this oracle. -/
def oCheckout : TurnOracle := ⟨Except.ok "CHECKOUT", Except.ok none, Except.ok "", "ORD-1"⟩

/-- State after turn 1 ("hola" → welcome). -/
def S1 : ConvState :=
  { messages := [Msg.human "hola", Msg.ai welcomeMessage], cart := ShoppingCart.empty,
    current_intent := .unknown, stage := .shopping, last_search_results := none,
    last_product_id := none, customer_name := none, customer_city := none,
    order := none, session_id := "s1" }

/-- State after turn 2 (add one unit of "X"). -/
def S2 : ConvState :=
  { S1 with
    messages := S1.messages ++ [Msg.human "añade una camiseta",
      Msg.ai "✅ 1x X añadido al carrito."]
    cart := cartA
    current_intent := .manage_cart
    last_product_id := some "p1" }

/-- State after turn 3 ("comprar" → asked for the name). -/
def S3 : ConvState :=
  { S2 with
    messages := S2.messages ++ [Msg.human "comprar",
      Msg.ai "📝 Para completar la compra necesito tus datos.\n¿Cuál es tu nombre?"]
    current_intent := .checkout
    stage := .checkout }

/-- State after turn 4 ("Juan" → asked for the city). -/
def S4 : ConvState :=
  { S3 with
    messages := S3.messages ++ [Msg.human "Juan", Msg.ai "✅ Perfecto. ¿En qué ciudad?"]
    customer_name := some "Juan" }

/-- Turn-5 intermediate state: "Madrid" appended and the deterministic
    CHECKOUT override applied. -/
def S4c : ConvState :=
  { S4 with
    messages := S4.messages ++ [Msg.human "Madrid"]
    current_intent := .checkout }

/-- State after turn 5 (order completed, cart cleared). -/
def S5 : ConvState := completedState "ORD-1" S4c

/-- State after turn 6 (an item added again after completion): the cart
    is non-empty while customer name and city are both still set. -/
def S6 : ConvState :=
  { S5 with
    messages := S5.messages ++ [Msg.human "añade una camiseta",
      Msg.ai "✅ 1x X añadido al carrito."]
    cart := cartA
    current_intent := .manage_cart
    last_product_id := some "p1"
    stage := .shopping }

lemma cartA_total_nonneg : 0 ≤ cartA.get_total := by
  refine get_total_nonneg ?_
  intro kv hkv
  have : kv = ("p1", ⟨wProduct, 1⟩) := by
    simpa [cartA, List.mem_singleton] using hkv
  subst this
  exact round2_nonneg (mul_nonneg (by decide) (by decide))

lemma turn5_step : send_message catW oCheckout "Madrid" S4 = Except.ok S5 := by
  rw [send_message, run_conversation_turn]
  rw [show (detect_intent_node oCheckout.intentReply
    { S4 with messages := S4.messages ++ [Msg.human "Madrid"] }).state = S4c from rfl]
  rw [runHandler]
  rw [show route_by_intent S4c = Route.checkout from rfl]
  exact checkout_node_city_ok "ORD-1" (by decide) (by decide) (by decide) (by decide)
    (by decide) cartA_total_nonneg

/-- C4 counterexample: `S6` is reachable through real turns (welcome,
    add, checkout, name, city, add again), and on it the checkout
    handler returns the state unchanged — appending zero assistant
    messages, against the claim's "exactly one". -/
theorem checkout_zero_append_counterexample :
    ReachableConv catW S6 ∧ checkout_node "ORD-2" S6 = Except.ok S6 := by
  constructor
  · have h1 : send_message catW oWelcome "hola" (create_initial_state "s1") =
        Except.ok S1 := rfl
    have h2 : send_message catW oManage "añade una camiseta" S1 = Except.ok S2 := rfl
    have h3 : send_message catW oCheckout "comprar" S2 = Except.ok S3 := rfl
    have h4 : send_message catW oCheckout "Juan" S3 = Except.ok S4 := rfl
    have h6 : send_message catW oManage "añade una camiseta" S5 = Except.ok S6 := rfl
    exact ReachableConv.step oManage "añade una camiseta"
      (ReachableConv.step oCheckout "Madrid"
        (ReachableConv.step oCheckout "Juan"
          (ReachableConv.step oCheckout "comprar"
            (ReachableConv.step oManage "añade una camiseta"
              (ReachableConv.step oWelcome "hola"
                (ReachableConv.init "s1") h1) h2) h3) h4) turn5_step) h6
  · rfl

/-- Witness for C4 at concrete inputs: view-cart appends exactly one
    message on the initial state, and checkout on the reachable
    all-data-set state `S6` appends none. -/
theorem handlers_message_discipline_witness :
    (∃ m, (view_cart_node (create_initial_state "w")).messages =
      (create_initial_state "w").messages ++ [Msg.ai m]) ∧
    checkout_node "ORD-3" S6 = Except.ok S6 := by
  have h := handlers_message_discipline
  exact ⟨h.2.1 (create_initial_state "w"),
    h.2.2.2.2.2.2.2 "ORD-3" S6 (by decide) (by decide) (by decide)⟩
